import Mathlib

/-!
Shallow embedding of the enrollment/certificate core of the gestor-eventos
repository (src/api/models.py, src/api/views.py, src/api/serializers.py,
src/api/endpoints.py, src/api/management/commands/emitir_certificados.py).

The relational store is a `DB` record of lists; every persisted write in the
source goes through `Model.save`, which calls `full_clean` (field checks,
`clean`, `validate_unique`) and aborts on the first validation error, so the
embedding routes every write through `Inscricao.saveNew` / `Inscricao.saveUpdate`
/ `Certificado.updateOrCreate`, which do exactly that.  View functions mirror
the request handlers line by line; an `Except.error` models a rejected request
(no write happens in the source on that path: either the handler returns an
error response before writing, or `save` raises and the transaction is not
committed).
-/

/-- Perfil choices of `Usuario.perfil` (models.py `PerfilChoices`). -/
inductive Perfil where
  | ALUNO
  | PROFESSOR
  | ORGANIZADOR
  | ADMIN
deriving DecidableEq, Repr

/-- Status choices of `Inscricao.status` (models.py `InscricaoStatus`). -/
inductive InscricaoStatus where
  | PENDENTE
  | CONFIRMADA
  | CANCELADA
deriving DecidableEq, Repr

/-- models.py `Usuario` — only the fields the enrollment core reads. -/
structure Usuario where
  id : Nat
  perfil : Perfil
deriving DecidableEq, Repr

/-- models.py `Evento` — only the fields the enrollment core reads.
`data_fim` is a date encoded as an integer day number.  The model has no
duration field (`carga_horaria` does not exist on `Evento`). -/
structure Evento where
  id : Nat
  capacidade : Nat
  organizador : Nat
  data_fim : Int
deriving DecidableEq, Repr

/-- models.py `Inscricao`. `pk` is the primary key. -/
structure Inscricao where
  pk : Nat
  evento : Nat
  participante : Nat
  status : InscricaoStatus
  presenca_confirmada : Bool
deriving DecidableEq, Repr

/-- models.py `Certificado`.  `inscricao` is a one-to-one key.  `emitido_por`
is a non-nullable foreign key in the schema; it is carried as an `Option` so
that an unsaved instance with the field left unset (as the auto-issue command
builds) can be expressed — `full_clean` rejects `none`, exactly as Django
rejects a null value for this field before any write. -/
structure Certificado where
  inscricao : Nat
  emitido_por : Option Nat
  codigo : Nat
  carga_horaria : Nat
  validade : Option Int
  observacoes : String
deriving DecidableEq, Repr

/-- The relational store. -/
structure DB where
  usuarios : List Usuario
  eventos : List Evento
  inscricoes : List Inscricao
  certificados : List Certificado
deriving DecidableEq, Repr

/-- Validation / permission errors surfaced by the handlers (§erro messages in
the source, one constructor per distinct message or HTTP-level rejection). -/
inductive ValErr where
  | participanteNaoElegivel
  | organizadorNaoPermitido
  | capacidadeMaxima
  | presencaSemConfirmacao
  | jaInscrito
  | eventoNaoEncontrado
  | participanteNaoEncontrado
  | inscricaoNaoEncontrada
  | semPermissao
  | semVagas
  | selecioneParticipante
  | selecioneInscricao
  | selecioneEmissor
  | informeCarga
  | cargaInvalida
  | validadeInvalida
  | naoElegivel
  | emissorInvalido
  | certInscricaoNaoConfirmada
  | certSemPresenca
  | certEmissorObrigatorio
  | certEmissorPerfil
deriving DecidableEq, Repr

/-- `Usuario.objects.get(pk=...)`. -/
def findUsuario (db : DB) (pk : Nat) : Option Usuario :=
  db.usuarios.find? (fun u => decide (u.id = pk))

/-- `Evento.objects.get(pk=...)`. -/
def findEvento (db : DB) (pk : Nat) : Option Evento :=
  db.eventos.find? (fun e => decide (e.id = pk))

/-- `Inscricao.objects.get(pk=...)`. -/
def findInscricao (db : DB) (pk : Nat) : Option Inscricao :=
  db.inscricoes.find? (fun i => decide (i.pk = pk))

/-- `Inscricao.objects.filter(evento_id=..., participante_id=...).first()`. -/
def findInscricaoPair (db : DB) (evento participante : Nat) : Option Inscricao :=
  db.inscricoes.find? (fun i => decide (i.evento = evento ∧ i.participante = participante))

/-- `Certificado.objects.filter(inscricao=...)` first match (the one-to-one
lookup `update_or_create` performs). -/
def findCertificado (db : DB) (inscricao : Nat) : Option Certificado :=
  db.certificados.find? (fun c => decide (c.inscricao = inscricao))

/-- `self.evento.inscricoes.filter(status=CONFIRMADA)` count, with the
`exclude(pk=self.pk)` clause when `excluirPk` is given (models.py lines
199-202). -/
def confirmadasCount (db : DB) (evento : Nat) (excluirPk : Option Nat) : Nat :=
  (db.inscricoes.filter (fun i =>
    decide (i.evento = evento ∧ i.status = InscricaoStatus.CONFIRMADA ∧
      excluirPk ≠ some i.pk))).length

/-- models.py `Evento.vagas_disponiveis`: `max(capacidade - confirmadas, 0)`
(truncated subtraction on `Nat` is exactly that). -/
def vagas_disponiveis (db : DB) (e : Evento) : Nat :=
  e.capacidade - confirmadasCount db e.id none

/-- models.py `Inscricao.clean` lines 181-193: participant must be ALUNO or
PROFESSOR, with the explicit second check blocking ORGANIZADOR.  The source
guards with `if self.participante`, so an unresolvable reference skips the
check. -/
def participanteCheck (db : DB) (self : Inscricao) : Except ValErr Unit :=
  match findUsuario db self.participante with
  | none => Except.ok ()
  | some u =>
    if ¬(u.perfil = Perfil.ALUNO ∨ u.perfil = Perfil.PROFESSOR) then
      Except.error ValErr.participanteNaoElegivel
    else if u.perfil = Perfil.ORGANIZADOR then
      Except.error ValErr.organizadorNaoPermitido
    else Except.ok ()

/-- models.py `Inscricao.clean` (lines 179-210): participant role checks, then
`if not self.evento_id: return`, then the capacity check for CONFIRMADA
(excluding this record's own pk when updating), then the
attendance-requires-confirmed check. -/
def Inscricao.clean (db : DB) (self : Inscricao) (excluirPk : Option Nat) :
    Except ValErr Unit :=
  match participanteCheck db self with
  | Except.error e => Except.error e
  | Except.ok _ =>
    match findEvento db self.evento with
    | none => Except.ok ()
    | some ev =>
      if self.status = InscricaoStatus.CONFIRMADA ∧
          confirmadasCount db self.evento excluirPk ≥ ev.capacidade then
        Except.error ValErr.capacidadeMaxima
      else if self.presenca_confirmada = true ∧
          self.status ≠ InscricaoStatus.CONFIRMADA then
        Except.error ValErr.presencaSemConfirmacao
      else Except.ok ()

/-- the `unique_together = ("evento", "participante")` check `full_clean`
performs in `validate_unique`, excluding the record's own pk when updating. -/
def Inscricao.validate_unique (db : DB) (self : Inscricao) (excluirPk : Option Nat) :
    Except ValErr Unit :=
  if db.inscricoes.any (fun i =>
      decide (i.evento = self.evento ∧ i.participante = self.participante ∧
        excluirPk ≠ some i.pk)) then
    Except.error ValErr.jaInscrito
  else Except.ok ()

/-- `Model.full_clean`: field checks (nothing to check here — every field is
well-typed), `clean`, then `validate_unique`. -/
def Inscricao.full_clean (db : DB) (self : Inscricao) (excluirPk : Option Nat) :
    Except ValErr Unit :=
  match Inscricao.clean db self excluirPk with
  | Except.error e => Except.error e
  | Except.ok _ => Inscricao.validate_unique db self excluirPk

/-- A fresh auto-assigned primary key. -/
def proximoPk (l : List Inscricao) : Nat :=
  (l.map (fun i => i.pk)).foldr max 0 + 1

/-- `Inscricao.objects.create(...)`: `Inscricao.save` runs `full_clean` (with
no pk yet, so nothing is excluded from the counts) and inserts on success.
Every creation site in the source passes `presenca_confirmada` implicitly as
its default `False` except the manage API, which may pass it. -/
def Inscricao.registroNovo (db : DB) (evento participante : Nat)
    (st : InscricaoStatus) (presenca : Bool) : Inscricao :=
  { pk := proximoPk db.inscricoes, evento := evento, participante := participante,
    status := st, presenca_confirmada := presenca }

/-- the insertion `objects.create` performs once `full_clean` passed. -/
def Inscricao.saveNew (db : DB) (evento participante : Nat)
    (st : InscricaoStatus) (presenca : Bool) : Except ValErr DB :=
  match Inscricao.full_clean db (Inscricao.registroNovo db evento participante st presenca) none with
  | Except.error e => Except.error e
  | Except.ok _ =>
    Except.ok
      { db with
        inscricoes := db.inscricoes ++ [Inscricao.registroNovo db evento participante st presenca] }

/-- `inscricao.save()` on an already-persisted record: `full_clean` excludes
the record's own pk, then the row is overwritten in place. -/
def Inscricao.saveUpdate (db : DB) (self : Inscricao) : Except ValErr DB :=
  match Inscricao.full_clean db self (some self.pk) with
  | Except.error e => Except.error e
  | Except.ok _ =>
    Except.ok
      { db with
        inscricoes := db.inscricoes.map (fun i => if i.pk = self.pk then self else i) }

/-- the status-update step shared by views.py lines 746-752 and 1258-1265: if
presence was confirmed and the status is being changed to something other than
CONFIRMADA, the presence flag is reset as part of the same write; then the new
status is applied. -/
def statusUpdateRecord (existing : Inscricao) (st : InscricaoStatus) : Inscricao :=
  if existing.presenca_confirmada = true ∧ existing.status ≠ st ∧
      st ≠ InscricaoStatus.CONFIRMADA then
    { existing with status := st, presenca_confirmada := false }
  else
    { existing with status := st }

/-- views.py `DetalhesEventoView.post`, manage branch (lines 1215-1295):
admin/organizer creates a registration or updates the status of an existing
one.  The event is fetched first (`get_object_or_404`, line 1192). -/
def manageInscricao (db : DB) (actorId evento_id participante_id : Nat)
    (st : InscricaoStatus) : Except ValErr DB :=
  match findEvento db evento_id with
  | none => Except.error ValErr.eventoNaoEncontrado
  | some evento =>
    match findUsuario db actorId with
    | none => Except.error ValErr.semPermissao
    | some actor =>
      if actor.perfil = Perfil.ORGANIZADOR ∧ evento.organizador ≠ actor.id then
        Except.error ValErr.semPermissao
      else if ¬(actor.perfil = Perfil.ADMIN ∨ actor.perfil = Perfil.ORGANIZADOR) then
        Except.error ValErr.semPermissao
      else
        match findUsuario db participante_id with
        | none => Except.error ValErr.participanteNaoEncontrado
        | some participante =>
          if ¬(participante.perfil = Perfil.ALUNO ∨ participante.perfil = Perfil.PROFESSOR) then
            Except.error ValErr.participanteNaoElegivel
          else if participante.perfil = Perfil.ORGANIZADOR then
            Except.error ValErr.organizadorNaoPermitido
          else
            match findInscricaoPair db evento_id participante_id with
            | some existing => Inscricao.saveUpdate db (statusUpdateRecord existing st)
            | none =>
              if st = InscricaoStatus.CONFIRMADA ∧ vagas_disponiveis db evento = 0 then
                Except.error ValErr.semVagas
              else
                Inscricao.saveNew db evento_id participante_id st false

/-- views.py `DetalhesEventoView.post`, `cancel_inscricao` branch (lines
1194-1213): a student/professor cancels their own registration on the event.
The presence flag is not touched, so `save` rejects the write when presence
was confirmed (the `ValidationError` propagates and nothing is committed). -/
def detalhesEventoCancel (db : DB) (actorId evento_id : Nat) : Except ValErr DB :=
  match findEvento db evento_id with
  | none => Except.error ValErr.eventoNaoEncontrado
  | some _ =>
    match findUsuario db actorId with
    | none => Except.error ValErr.semPermissao
    | some actor =>
      if ¬(actor.perfil = Perfil.ALUNO ∨ actor.perfil = Perfil.PROFESSOR) then
        Except.error ValErr.semPermissao
      else
        match findInscricaoPair db evento_id actor.id with
        | none => Except.error ValErr.inscricaoNaoEncontrada
        | some insc =>
          Inscricao.saveUpdate db { insc with status := InscricaoStatus.CANCELADA }

/-- views.py `InscricaoUsuarioView.post` lines 675-703: who the participant
and the requested status are, depending on the acting user's role — a
student/professor always registers themselves with PENDENTE; an organizer
picks a participant other than themselves and a status; an admin picks both
freely (the status defaults to PENDENTE when absent). -/
def escolhaParticipante (actor : Usuario) (participante_req : Option Nat)
    (status_req : Option InscricaoStatus) : Except ValErr (Nat × InscricaoStatus) :=
  if actor.perfil = Perfil.ALUNO ∨ actor.perfil = Perfil.PROFESSOR then
    Except.ok (actor.id, InscricaoStatus.PENDENTE)
  else if actor.perfil = Perfil.ORGANIZADOR then
    match participante_req with
    | none => Except.error ValErr.selecioneParticipante
    | some p =>
      if p = actor.id then Except.error ValErr.organizadorNaoPermitido
      else Except.ok (p, status_req.getD InscricaoStatus.PENDENTE)
  else
    match participante_req with
    | none => Except.error ValErr.selecioneParticipante
    | some p => Except.ok (p, status_req.getD InscricaoStatus.PENDENTE)

/-- views.py `InscricaoUsuarioView.post` (lines 669-783).  A student/professor
registers themselves (status forced PENDENTE); an organizer/admin registers a
chosen participant with a chosen status, or updates the existing registration.
Lines 763-766 additionally reject a student/professor when the event has no
available slots, even for a PENDENTE registration. -/
def inscricaoUsuarioPost (db : DB) (actorId evento_id : Nat)
    (participante_req : Option Nat) (status_req : Option InscricaoStatus) :
    Except ValErr DB :=
  match findUsuario db actorId with
  | none => Except.error ValErr.semPermissao
  | some actor =>
    match escolhaParticipante actor participante_req status_req with
    | Except.error e => Except.error e
    | Except.ok (participante_id, st) =>
      match findUsuario db participante_id with
      | none => Except.error ValErr.participanteNaoEncontrado
      | some participante =>
        if ¬(participante.perfil = Perfil.ALUNO ∨ participante.perfil = Perfil.PROFESSOR) then
          Except.error ValErr.participanteNaoElegivel
        else if participante.perfil = Perfil.ORGANIZADOR then
          Except.error ValErr.organizadorNaoPermitido
        else
          match findEvento db evento_id with
          | none => Except.error ValErr.eventoNaoEncontrado
          | some evento =>
            if actor.perfil = Perfil.ORGANIZADOR ∧ evento.organizador ≠ actor.id then
              Except.error ValErr.semPermissao
            else
              match findInscricaoPair db evento_id participante_id with
              | some existing =>
                if actor.perfil = Perfil.ADMIN ∨ actor.perfil = Perfil.ORGANIZADOR then
                  Inscricao.saveUpdate db (statusUpdateRecord existing st)
                else
                  Except.error ValErr.jaInscrito
              | none =>
                if st = InscricaoStatus.CONFIRMADA ∧ vagas_disponiveis db evento = 0 then
                  Except.error ValErr.semVagas
                else if (actor.perfil = Perfil.ALUNO ∨ actor.perfil = Perfil.PROFESSOR) ∧
                    vagas_disponiveis db evento = 0 then
                  Except.error ValErr.semVagas
                else
                  Inscricao.saveNew db evento_id participante_id st false

/-- the FK dereference `evento.organizador == user` the handlers perform when
an organizer's ownership of an event is checked. -/
def eventoDoOrganizador (db : DB) (evento_id usuario_id : Nat) : Bool :=
  match findEvento db evento_id with
  | some e => decide (e.organizador = usuario_id)
  | none => false

/-- endpoints.py `InscricaoCancelView.post` (lines 284-309): sets the status
to CANCELADA after a participant/admin/owning-organizer permission check. -/
def inscricaoCancelApi (db : DB) (actorId pk : Nat) : Except ValErr DB :=
  match findInscricao db pk with
  | none => Except.error ValErr.inscricaoNaoEncontrada
  | some insc =>
    match findUsuario db actorId with
    | none => Except.error ValErr.semPermissao
    | some actor =>
      if insc.participante = actor.id ∨ actor.perfil = Perfil.ADMIN ∨
          (actor.perfil = Perfil.ORGANIZADOR ∧
            eventoDoOrganizador db insc.evento actor.id = true) then
        Inscricao.saveUpdate db { insc with status := InscricaoStatus.CANCELADA }
      else
        Except.error ValErr.semPermissao

/-- endpoints.py `InscricaoCreateView` + serializers.py `InscricaoSerializer`
(self-registration API).  `status` and `presenca_confirmada` are read-only
serializer fields: whatever the client sends in `reqStatus` / `reqPresenca` is
dropped, the participant is the requesting user, the status is forced to
PENDENTE and the presence flag takes its model default `False`. -/
def inscricaoCreateSelfApi (db : DB) (actorId evento_id : Nat)
    (reqStatus : Option InscricaoStatus) (reqPresenca : Option Bool) :
    Except ValErr DB :=
  match findUsuario db actorId with
  | none => Except.error ValErr.semPermissao
  | some actor =>
    if ¬(actor.perfil = Perfil.ALUNO ∨ actor.perfil = Perfil.PROFESSOR) then
      Except.error ValErr.semPermissao
    else if actor.perfil = Perfil.ORGANIZADOR then
      Except.error ValErr.organizadorNaoPermitido
    else
      match findEvento db evento_id with
      | none => Except.error ValErr.eventoNaoEncontrado
      | some _ =>
        Inscricao.saveNew db evento_id actor.id InscricaoStatus.PENDENTE false

/-- endpoints.py `InscricaoManageCreateView` + `InscricaoManageSerializer`:
admin/organizer registers another participant; `status` and
`presenca_confirmada` are writable here. -/
def inscricaoManageCreateApi (db : DB) (actorId evento_id participante_id : Nat)
    (st : InscricaoStatus) (presenca : Bool) : Except ValErr DB :=
  match findUsuario db actorId with
  | none => Except.error ValErr.semPermissao
  | some actor =>
    if ¬(actor.perfil = Perfil.ORGANIZADOR ∨ actor.perfil = Perfil.ADMIN) then
      Except.error ValErr.semPermissao
    else
      match findEvento db evento_id with
      | none => Except.error ValErr.eventoNaoEncontrado
      | some evento =>
        match findUsuario db participante_id with
        | none => Except.error ValErr.participanteNaoEncontrado
        | some participante =>
          if ¬(participante.perfil = Perfil.ALUNO ∨ participante.perfil = Perfil.PROFESSOR) then
            Except.error ValErr.participanteNaoElegivel
          else if participante.perfil = Perfil.ORGANIZADOR then
            Except.error ValErr.organizadorNaoPermitido
          else if actor.perfil = Perfil.ORGANIZADOR ∧ evento.organizador ≠ actor.id then
            Except.error ValErr.semPermissao
          else
            Inscricao.saveNew db evento_id participante_id st presenca

/-- endpoints.py `InscricaoUpdateView` + `InscricaoManageSerializer.update`:
admin/organizer updates the status and/or presence flag of a registration; an
organizer only reaches registrations of their own events (queryset filter). -/
def inscricaoUpdateApi (db : DB) (actorId pk : Nat)
    (st : Option InscricaoStatus) (presenca : Option Bool) : Except ValErr DB :=
  match findUsuario db actorId with
  | none => Except.error ValErr.semPermissao
  | some actor =>
    if ¬(actor.perfil = Perfil.ORGANIZADOR ∨ actor.perfil = Perfil.ADMIN) then
      Except.error ValErr.semPermissao
    else
      match findInscricao db pk with
      | none => Except.error ValErr.inscricaoNaoEncontrada
      | some insc =>
        if actor.perfil = Perfil.ORGANIZADOR ∧
            eventoDoOrganizador db insc.evento actor.id = false then
          Except.error ValErr.inscricaoNaoEncontrada
        else
          Inscricao.saveUpdate db
            { insc with
              status := st.getD insc.status,
              presenca_confirmada := presenca.getD insc.presenca_confirmada }

/-- the update loop of views.py `PresencaView.post` (lines 1112-1125): each
CONFIRMADA registration of the event is saved individually with its new
presence flag; an exception mid-loop leaves the records already written (there
is no surrounding transaction), modeled by returning the state reached. -/
def presencaLoop (db : DB) (pks marcadas : List Nat) : DB :=
  match pks with
  | [] => db
  | pk :: rest =>
    match findInscricao db pk with
    | none => presencaLoop db rest marcadas
    | some i =>
      if i.presenca_confirmada = marcadas.contains pk then presencaLoop db rest marcadas
      else
        match Inscricao.saveUpdate db { i with presenca_confirmada := marcadas.contains pk } with
        | Except.ok db2 => presencaLoop db2 rest marcadas
        | Except.error _ => db

/-- views.py `PresencaView.post` (lines 1096-1128): organizer (own events) or
admin marks attendance for the CONFIRMADA registrations of one event. -/
def presencaPost (db : DB) (actorId evento_id : Nat) (marcadas : List Nat) : DB :=
  match findEvento db evento_id with
  | none => db
  | some evento =>
    match findUsuario db actorId with
    | none => db
    | some actor =>
      if actor.perfil = Perfil.ORGANIZADOR ∧ evento.organizador ≠ actor.id then db
      else
        presencaLoop db
          ((db.inscricoes.filter (fun i =>
            decide (i.evento = evento_id ∧ i.status = InscricaoStatus.CONFIRMADA))).map
            (fun i => i.pk))
          marcadas

/-- models.py `Certificado.clean` (lines 250-263): the registration must be
CONFIRMADA with attendance confirmed, and the issuer must be an ADMIN or
ORGANIZADOR.  A missing issuer (`emitido_por` unset) is rejected — the field
is a non-nullable foreign key and `full_clean`/`save` cannot go through with
it empty. -/
def Certificado.clean (db : DB) (self : Certificado) : Except ValErr Unit :=
  match findInscricao db self.inscricao with
  | none => Except.error ValErr.inscricaoNaoEncontrada
  | some insc =>
    if insc.status ≠ InscricaoStatus.CONFIRMADA then
      Except.error ValErr.certInscricaoNaoConfirmada
    else if insc.presenca_confirmada = false then
      Except.error ValErr.certSemPresenca
    else
      match self.emitido_por with
      | none => Except.error ValErr.certEmissorObrigatorio
      | some uid =>
        match findUsuario db uid with
        | none => Except.error ValErr.certEmissorObrigatorio
        | some u =>
          if ¬(u.perfil = Perfil.ADMIN ∨ u.perfil = Perfil.ORGANIZADOR) then
            Except.error ValErr.certEmissorPerfil
          else Except.ok ()

/-- A fresh unique certificate code (models.py assigns a uuid4 default). -/
def proximoCodigo (l : List Certificado) : Nat :=
  (l.map (fun c => c.codigo)).foldr max 0 + 1

/-- `Certificado.objects.create(...)`: `save` runs `full_clean` (which is
`Certificado.clean`; every field is otherwise well-typed) and appends. -/
def Certificado.saveNew (db : DB) (self : Certificado) : Except ValErr DB :=
  match Certificado.clean db self with
  | Except.error e => Except.error e
  | Except.ok _ => Except.ok { db with certificados := db.certificados ++ [self] }

/-- the overwritten record `update_or_create` saves when a certificate already
exists for the registration: the `defaults` dict replaces issuer, hours,
validity and notes, and the code is kept. -/
def certificadoAtualizado (existente : Certificado) (emissor : Option Nat)
    (carga : Nat) (validade : Option Int) (obs : String) : Certificado :=
  { existente with
    emitido_por := emissor, carga_horaria := carga,
    validade := validade, observacoes := obs }

/-- views.py lines 894-903: `Certificado.objects.update_or_create(inscricao=...,
defaults={emitido_por, carga_horaria, validade, observacoes})` — the existing
record for the registration is overwritten (its code is kept), otherwise a new
record with a fresh code is created; either way `save` validates first. -/
def Certificado.updateOrCreate (db : DB) (inscricaoPk : Nat) (emissor : Option Nat)
    (carga : Nat) (validade : Option Int) (obs : String) : Except ValErr DB :=
  match findCertificado db inscricaoPk with
  | some existente =>
    match Certificado.clean db (certificadoAtualizado existente emissor carga validade obs) with
    | Except.error e => Except.error e
    | Except.ok _ =>
      Except.ok
        { db with
          certificados := db.certificados.map
            (fun c =>
              if c.inscricao = inscricaoPk then
                certificadoAtualizado existente emissor carga validade obs
              else c) }
  | none =>
    Certificado.saveNew db
      { inscricao := inscricaoPk, emitido_por := emissor,
        codigo := proximoCodigo db.certificados, carga_horaria := carga,
        validade := validade, observacoes := obs }

/-- views.py line 875: the validity date, when given, must be strictly after
the event's end date (`validade <= data_fim` is rejected). -/
def validadeInvalida (db : DB) (insc : Inscricao) (validade : Option Int) : Bool :=
  match validade, findEvento db insc.evento with
  | some v, some ev => decide (v ≤ ev.data_fim)
  | _, _ => false

/-- views.py `EmissaoCertificadoView.post` (lines 828-892): everything that
runs before `update_or_create` — permission, required-field and
carga-horaria parsing, registration lookup, validity-date rule, organizer
ownership, the eligibility gate of lines 883-884 and the issuer lookup of
lines 886-892.  None of these reads `db.certificados`.  Returns the validated
(registration pk, issuer id, hours). -/
def emissaoChecks (db : DB) (actorId : Nat) (inscricao_id emissor_id : Option Nat)
    (carga : Option Int) (validade : Option Int) : Except ValErr (Nat × Nat × Nat) :=
  match findUsuario db actorId with
  | none => Except.error ValErr.semPermissao
  | some actor =>
    if ¬(actor.perfil = Perfil.ADMIN ∨ actor.perfil = Perfil.ORGANIZADOR) then
      Except.error ValErr.semPermissao
    else
      match inscricao_id with
      | none => Except.error ValErr.selecioneInscricao
      | some iid =>
        match emissor_id with
        | none => Except.error ValErr.selecioneEmissor
        | some eid =>
          match carga with
          | none => Except.error ValErr.informeCarga
          | some c =>
            if c ≤ 0 then Except.error ValErr.cargaInvalida
            else
              match findInscricao db iid with
              | none => Except.error ValErr.inscricaoNaoEncontrada
              | some insc =>
                if validadeInvalida db insc validade = true then
                  Except.error ValErr.validadeInvalida
                else if actor.perfil = Perfil.ORGANIZADOR ∧
                    eventoDoOrganizador db insc.evento actor.id = false then
                  Except.error ValErr.semPermissao
                else if ¬(insc.status = InscricaoStatus.CONFIRMADA ∧
                    insc.presenca_confirmada = true) then
                  Except.error ValErr.naoElegivel
                else
                  match findUsuario db eid with
                  | none => Except.error ValErr.emissorInvalido
                  | some emissor =>
                    if ¬(emissor.perfil = Perfil.ADMIN ∨
                        emissor.perfil = Perfil.ORGANIZADOR) then
                      Except.error ValErr.emissorInvalido
                    else Except.ok (iid, eid, c.toNat)

/-- views.py `EmissaoCertificadoView.post`: the checks above, then the
`update_or_create` upsert keyed by the registration. -/
def emissaoCertificadoPost (db : DB) (actorId : Nat)
    (inscricao_id emissor_id : Option Nat) (carga : Option Int)
    (validade : Option Int) (obs : String) : Except ValErr DB :=
  match emissaoChecks db actorId inscricao_id emissor_id carga validade with
  | Except.error e => Except.error e
  | Except.ok (iid, eid, c) => Certificado.updateOrCreate db iid (some eid) c validade obs

/-- the certificate record management/commands/emitir_certificados.py line
29-33 attempts to build for an eligible registration: `emitido_por` is not
supplied (the comment claims it may stay null, but the model field is a
non-nullable foreign key).  The hours value cannot even be computed in the
source — `evento.carga_horaria` reads a field `Evento` does not define — so it
is taken here as an arbitrary input. -/
def certificadoSistema (inscricaoPk carga codigo : Nat) : Certificado :=
  { inscricao := inscricaoPk, emitido_por := none, codigo := codigo,
    carga_horaria := carga, validade := none, observacoes := "" }

/-- endpoints.py `InscricaoDeleteView` (`instance.delete()`): hard delete of a
registration; the `on_delete=CASCADE` of `Certificado.inscricao` removes any
certificate referencing it. -/
def podeDeletarInscricao (db : DB) (actor : Usuario) (insc : Inscricao) : Bool :=
  if actor.perfil = Perfil.ALUNO ∨ actor.perfil = Perfil.PROFESSOR then
    decide (insc.participante = actor.id)
  else if actor.perfil = Perfil.ORGANIZADOR then
    eventoDoOrganizador db insc.evento actor.id
  else true

/-- endpoints.py `InscricaoDeleteView` continued: the view's queryset limits
students/professors to their own registrations and organizers to their events;
a registration outside the queryset is a 404. -/
def inscricaoHardDelete (db : DB) (actorId pk : Nat) : Except ValErr DB :=
  match findUsuario db actorId with
  | none => Except.error ValErr.semPermissao
  | some actor =>
    match findInscricao db pk with
    | none => Except.error ValErr.inscricaoNaoEncontrada
    | some insc =>
      if podeDeletarInscricao db actor insc = false then
        Except.error ValErr.inscricaoNaoEncontrada
      else
        Except.ok
          { db with
            inscricoes := db.inscricoes.filter (fun i => decide (i.pk ≠ pk)),
            certificados := db.certificados.filter (fun c => decide (c.inscricao ≠ pk)) }

/-- endpoints.py `EventoDeleteView` (`instance.delete()`): deleting an event
cascades to its registrations (`Inscricao.evento` is `on_delete=CASCADE`) and
through them to their certificates. -/
def eventoDelete (db : DB) (actorId pk : Nat) : Except ValErr DB :=
  match findUsuario db actorId with
  | none => Except.error ValErr.semPermissao
  | some actor =>
    if ¬(actor.perfil = Perfil.ORGANIZADOR ∨ actor.perfil = Perfil.ADMIN) then
      Except.error ValErr.semPermissao
    else
      match findEvento db pk with
      | none => Except.error ValErr.eventoNaoEncontrado
      | some evento =>
        if actor.perfil = Perfil.ORGANIZADOR ∧ evento.organizador ≠ actor.id then
          Except.error ValErr.eventoNaoEncontrado
        else
          Except.ok
            { db with
              eventos := db.eventos.filter (fun e => decide (e.id ≠ pk)),
              inscricoes := db.inscricoes.filter (fun i => decide (i.evento ≠ pk)),
              certificados := db.certificados.filter (fun c =>
                decide (¬ ∃ i ∈ db.inscricoes, i.evento = pk ∧ i.pk = c.inscricao)) }

/-- Every mutating operation of the enrollment core reachable from the web
views and the REST endpoints. -/
inductive Op where
  | manage (actorId evento_id participante_id : Nat) (st : InscricaoStatus)
  | inscreverUsuario (actorId evento_id : Nat) (participante_req : Option Nat)
      (status_req : Option InscricaoStatus)
  | cancelarDetalhes (actorId evento_id : Nat)
  | cancelarApi (actorId pk : Nat)
  | criarSelfApi (actorId evento_id : Nat) (reqStatus : Option InscricaoStatus)
      (reqPresenca : Option Bool)
  | criarManageApi (actorId evento_id participante_id : Nat) (st : InscricaoStatus)
      (presenca : Bool)
  | atualizarApi (actorId pk : Nat) (st : Option InscricaoStatus) (presenca : Option Bool)
  | marcarPresenca (actorId evento_id : Nat) (marcadas : List Nat)
  | emitirCertificado (actorId : Nat) (inscricao_id emissor_id : Option Nat)
      (carga : Option Int) (validade : Option Int) (obs : String)
  | deletarInscricao (actorId pk : Nat)
  | deletarEvento (actorId pk : Nat)
deriving Repr

/-- the state after a handler ran: a rejected request leaves the store as it
was. -/
def resultado (db : DB) : Except ValErr DB → DB
  | Except.ok db2 => db2
  | Except.error _ => db

/-- One request against the store. -/
def applyOp (db : DB) : Op → DB
  | Op.manage a e p st => resultado db (manageInscricao db a e p st)
  | Op.inscreverUsuario a e p st => resultado db (inscricaoUsuarioPost db a e p st)
  | Op.cancelarDetalhes a e => resultado db (detalhesEventoCancel db a e)
  | Op.cancelarApi a pk => resultado db (inscricaoCancelApi db a pk)
  | Op.criarSelfApi a e rs rp => resultado db (inscricaoCreateSelfApi db a e rs rp)
  | Op.criarManageApi a e p st pr => resultado db (inscricaoManageCreateApi db a e p st pr)
  | Op.atualizarApi a pk st pr => resultado db (inscricaoUpdateApi db a pk st pr)
  | Op.marcarPresenca a e m => presencaPost db a e m
  | Op.emitirCertificado a iid eid c v o => resultado db (emissaoCertificadoPost db a iid eid c v o)
  | Op.deletarInscricao a pk => resultado db (inscricaoHardDelete db a pk)
  | Op.deletarEvento a pk => resultado db (eventoDelete db a pk)

/-- A sequence of requests. -/
def runOps (db : DB) (ops : List Op) : DB :=
  ops.foldl applyOp db

/-- Event primary keys are unique. -/
def eventosNodup (db : DB) : Prop :=
  (db.eventos.map (fun e => e.id)).Nodup

/-- Registration primary keys are unique. -/
def pksNodup (db : DB) : Prop :=
  (db.inscricoes.map (fun i => i.pk)).Nodup

/-- Referential integrity of `Inscricao.evento`. -/
def fkEventoInv (db : DB) : Prop :=
  ∀ i ∈ db.inscricoes, (findEvento db i.evento).isSome = true

/-- The capacity invariant (§spec: confirmed count never exceeds capacity). -/
def capacityInv (db : DB) : Prop :=
  ∀ e ∈ db.eventos, confirmadasCount db e.id none ≤ e.capacidade

/-- The attendance invariant (§spec: presence only on CONFIRMADA). -/
def presencaInv (db : DB) : Prop :=
  ∀ i ∈ db.inscricoes, i.presenca_confirmada = true → i.status = InscricaoStatus.CONFIRMADA

/-- Well-formedness of the store: what the schema's uniqueness and foreign-key
constraints give, plus the two validated invariants. -/
def DBWF (db : DB) : Prop :=
  eventosNodup db ∧ pksNodup db ∧ fkEventoInv db ∧ capacityInv db ∧ presencaInv db

/-- Every certificate points at an existing registration (the one-to-one
foreign key with cascade). -/
def certIntegrity (db : DB) : Prop :=
  ∀ c ∈ db.certificados, ∃ i ∈ db.inscricoes, i.pk = c.inscricao

/-- the predicate "confirmed registration of event `ev`". -/
def confOn (ev : Nat) (i : Inscricao) : Bool :=
  decide (i.evento = ev ∧ i.status = InscricaoStatus.CONFIRMADA)

/-- A small concrete store: a capacity-1 event owned by organizer 1, already
full with a confirmed registration of student 2 (no attendance yet). -/
def dbCheio : DB :=
  { usuarios := [⟨1, Perfil.ORGANIZADOR⟩, ⟨2, Perfil.ALUNO⟩, ⟨3, Perfil.ALUNO⟩,
                 ⟨4, Perfil.PROFESSOR⟩, ⟨9, Perfil.ADMIN⟩],
    eventos := [⟨1, 1, 1, 10⟩],
    inscricoes := [⟨1, 1, 2, InscricaoStatus.CONFIRMADA, false⟩],
    certificados := [] }

/-- A concrete store with a cancelled registration on a capacity-3 event. -/
def dbCancelada : DB :=
  { usuarios := [⟨1, Perfil.ORGANIZADOR⟩, ⟨2, Perfil.ALUNO⟩, ⟨3, Perfil.ALUNO⟩,
                 ⟨9, Perfil.ADMIN⟩],
    eventos := [⟨2, 3, 1, 10⟩],
    inscricoes := [⟨1, 2, 2, InscricaoStatus.CANCELADA, false⟩],
    certificados := [] }

/-- A concrete store with a certificate-eligible registration (confirmed with
attendance). -/
def dbElegivel : DB :=
  { usuarios := [⟨1, Perfil.ORGANIZADOR⟩, ⟨2, Perfil.ALUNO⟩, ⟨9, Perfil.ADMIN⟩],
    eventos := [⟨1, 1, 1, 10⟩],
    inscricoes := [⟨1, 1, 2, InscricaoStatus.CONFIRMADA, true⟩],
    certificados := [] }

/-- A concrete store with an event that has free capacity and no
registrations. -/
def dbVazio : DB :=
  { usuarios := [⟨1, Perfil.ORGANIZADOR⟩, ⟨2, Perfil.ALUNO⟩, ⟨3, Perfil.ALUNO⟩,
                 ⟨9, Perfil.ADMIN⟩],
    eventos := [⟨2, 3, 1, 10⟩],
    inscricoes := [],
    certificados := [] }

theorem foldr_max_le_of_mem {l : List Nat} {x : Nat} (hx : x ∈ l) :
    x ≤ l.foldr max 0 := by
  induction l with
  | nil => cases hx
  | cons a t ih =>
    rcases List.mem_cons.mp hx with h | h
    · subst h; exact le_max_left _ _
    · exact le_trans (ih h) (le_max_right _ _)

theorem proximoPk_not_mem (l : List Inscricao) :
    proximoPk l ∉ l.map (fun i => i.pk) := by
  intro hmem
  have := foldr_max_le_of_mem hmem
  unfold proximoPk at this
  omega

theorem map_pk_replace (l : List Inscricao) (x : Inscricao) :
    (l.map (fun i => if i.pk = x.pk then x else i)).map (fun i => i.pk) =
      l.map (fun i => i.pk) := by
  induction l with
  | nil => rfl
  | cons a t ih =>
    simp only [List.map_cons, List.cons.injEq]
    constructor
    · by_cases h : a.pk = x.pk
      · simp [h]
      · simp [h]
    · exact ih

theorem countP_replace_le (l : List Inscricao) (x : Inscricao) (p : Inscricao → Bool) :
    (l.map (fun i => if i.pk = x.pk then x else i)).countP p ≤
      l.countP (fun i => p i && decide (i.pk ≠ x.pk)) +
        l.countP (fun i => decide (i.pk = x.pk)) := by
  induction l with
  | nil => simp
  | cons a t ih =>
    by_cases h : a.pk = x.pk
    · by_cases hp : p x = true
      · simp [List.countP_cons, h, hp] at ih ⊢
        omega
      · simp only [Bool.not_eq_true] at hp
        simp [List.countP_cons, h, hp] at ih ⊢
        omega
    · by_cases hp : p a = true
      · simp [List.countP_cons, h, hp] at ih ⊢
        omega
      · simp only [Bool.not_eq_true] at hp
        simp [List.countP_cons, h, hp] at ih ⊢
        omega

theorem countP_replace_le_of_neg (l : List Inscricao) (x : Inscricao)
    (p : Inscricao → Bool) (hx : p x = false) :
    (l.map (fun i => if i.pk = x.pk then x else i)).countP p ≤ l.countP p := by
  induction l with
  | nil => simp
  | cons a t ih =>
    simp only [List.map_cons, List.countP_cons]
    by_cases h : a.pk = x.pk
    · rw [if_pos h, hx]
      simp only [if_neg Bool.false_ne_true]
      by_cases hp : p a
      · simp only [hp, if_pos rfl]; omega
      · simp only [Bool.not_eq_true] at hp; rw [hp]
        simp only [if_neg Bool.false_ne_true]; omega
    · rw [if_neg h]
      omega

theorem countP_pk_le_one (l : List Inscricao)
    (h : (l.map (fun i => i.pk)).Nodup) (k : Nat) :
    l.countP (fun i => decide (i.pk = k)) ≤ 1 := by
  induction l with
  | nil => simp
  | cons a t ih =>
    simp only [List.map_cons, List.nodup_cons] at h
    simp only [List.countP_cons]
    by_cases hk : a.pk = k
    · have hzero : t.countP (fun i => decide (i.pk = k)) = 0 := by
        rw [List.countP_eq_zero]
        intro i hi
        simp only [decide_eq_true_eq]
        intro hik
        exact h.1 (hk ▸ hik ▸ List.mem_map_of_mem (fun i => i.pk) hi)
      rw [hzero]
      simp [hk]
    · have : decide (a.pk = k) = false := by simp [hk]
      rw [this]
      simpa using ih h.2

theorem confirmadasCount_none (db : DB) (ev : Nat) :
    confirmadasCount db ev none = db.inscricoes.countP (confOn ev) := by
  unfold confirmadasCount confOn
  rw [List.countP_eq_length_filter]
  congr 1
  apply List.filter_congr
  intro i _
  by_cases h1 : i.evento = ev <;> by_cases h2 : i.status = InscricaoStatus.CONFIRMADA <;>
    simp [h1, h2]

theorem confirmadasCount_some (db : DB) (ev k : Nat) :
    confirmadasCount db ev (some k) =
      db.inscricoes.countP (fun i => confOn ev i && decide (i.pk ≠ k)) := by
  unfold confirmadasCount confOn
  rw [List.countP_eq_length_filter]
  congr 1
  apply List.filter_congr
  intro i _
  by_cases h1 : i.evento = ev <;> by_cases h2 : i.status = InscricaoStatus.CONFIRMADA <;>
    by_cases h3 : i.pk = k <;> simp [h1, h2, h3, Ne.symm]

theorem findEvento_mem {db : DB} {k : Nat} {e : Evento}
    (h : findEvento db k = some e) : e ∈ db.eventos ∧ e.id = k := by
  unfold findEvento at h
  refine ⟨List.mem_of_find?_eq_some h, ?_⟩
  have := List.find?_some h
  simpa using this

theorem findInscricao_mem {db : DB} {k : Nat} {i : Inscricao}
    (h : findInscricao db k = some i) : i ∈ db.inscricoes ∧ i.pk = k := by
  unfold findInscricao at h
  refine ⟨List.mem_of_find?_eq_some h, ?_⟩
  have := List.find?_some h
  simpa using this

theorem findInscricaoPair_mem {db : DB} {ev pa : Nat} {i : Inscricao}
    (h : findInscricaoPair db ev pa = some i) :
    i ∈ db.inscricoes ∧ i.evento = ev ∧ i.participante = pa := by
  unfold findInscricaoPair at h
  refine ⟨List.mem_of_find?_eq_some h, ?_⟩
  have := List.find?_some h
  simpa using this

theorem findCertificado_mem {db : DB} {k : Nat} {c : Certificado}
    (h : findCertificado db k = some c) : c ∈ db.certificados ∧ c.inscricao = k := by
  unfold findCertificado at h
  refine ⟨List.mem_of_find?_eq_some h, ?_⟩
  have := List.find?_some h
  simpa using this

theorem find?_id_of_nodup (l : List Evento)
    (hn : (l.map (fun e => e.id)).Nodup) (e : Evento) (he : e ∈ l) :
    l.find? (fun x => decide (x.id = e.id)) = some e := by
  induction l with
  | nil => cases he
  | cons a t ih =>
    simp only [List.map_cons, List.nodup_cons] at hn
    rcases List.mem_cons.mp he with h | h
    · subst h
      rw [List.find?_cons_of_pos _ (by simp)]
    · have hne : (decide (a.id = e.id)) = false := by
        simp only [decide_eq_false_iff_not]
        intro heq
        exact hn.1 (heq ▸ List.mem_map_of_mem (fun x => x.id) h)
      rw [List.find?_cons_of_neg _ (by simp_all)]
      exact ih hn.2 h

theorem findEvento_of_mem {db : DB} {e : Evento} (hn : eventosNodup db)
    (he : e ∈ db.eventos) : findEvento db e.id = some e :=
  find?_id_of_nodup db.eventos hn e he

theorem findEvento_isSome_of_mem {db : DB} {e : Evento}
    (he : e ∈ db.eventos) : (findEvento db e.id).isSome = true := by
  unfold findEvento
  rw [List.find?_isSome]
  exact ⟨e, he, by simp⟩

/-- What a successful `Inscricao.clean` guarantees when the event exists. -/
theorem clean_ok_facts {db : DB} {self : Inscricao} {excl : Option Nat} {ev : Evento}
    (hev : findEvento db self.evento = some ev)
    (h : Inscricao.clean db self excl = Except.ok ()) :
    (self.status = InscricaoStatus.CONFIRMADA →
      confirmadasCount db self.evento excl < ev.capacidade) ∧
    (self.presenca_confirmada = true → self.status = InscricaoStatus.CONFIRMADA) := by
  unfold Inscricao.clean at h
  rw [hev] at h
  split at h
  · exact Except.noConfusion h
  · split at h
    · rename_i heq
      exact Option.noConfusion heq
    · rename_i ev2 heq
      injection heq with heq
      subst heq
      split at h
      · exact Except.noConfusion h
      · split at h
        · exact Except.noConfusion h
        · rename_i h1 h2
          constructor
          · intro hst
            by_contra hge
            exact h1 ⟨hst, by omega⟩
          · intro hpres
            by_contra hne
            exact h2 ⟨hpres, hne⟩

/-- What a successful `full_clean` decomposes into. -/
theorem full_clean_ok {db : DB} {self : Inscricao} {excl : Option Nat}
    (h : Inscricao.full_clean db self excl = Except.ok ()) :
    Inscricao.clean db self excl = Except.ok () ∧
    Inscricao.validate_unique db self excl = Except.ok () := by
  unfold Inscricao.full_clean at h
  split at h
  · exact Except.noConfusion h
  · rename_i u heq
    exact ⟨heq, h⟩

theorem saveNew_ok {db : DB} {ev part : Nat} {st : InscricaoStatus} {pres : Bool} {db2 : DB}
    (h : Inscricao.saveNew db ev part st pres = Except.ok db2) :
    Inscricao.full_clean db (Inscricao.registroNovo db ev part st pres) none = Except.ok () ∧
    db2 = { db with
            inscricoes := db.inscricoes ++ [Inscricao.registroNovo db ev part st pres] } := by
  unfold Inscricao.saveNew at h
  split at h
  · exact Except.noConfusion h
  · rename_i u heq
    injection h with h
    exact ⟨heq, h.symm⟩

theorem saveUpdate_ok {db : DB} {x : Inscricao} {db2 : DB}
    (h : Inscricao.saveUpdate db x = Except.ok db2) :
    Inscricao.full_clean db x (some x.pk) = Except.ok () ∧
    db2 = { db with
            inscricoes := db.inscricoes.map (fun i => if i.pk = x.pk then x else i) } := by
  unfold Inscricao.saveUpdate at h
  split at h
  · exact Except.noConfusion h
  · rename_i u heq
    injection h with h
    exact ⟨heq, h.symm⟩

/-- Inserting a record through `saveNew` preserves the well-formedness of the
store: `full_clean` re-establishes every invariant. -/
theorem saveNew_DBWF {db : DB} {ev part : Nat} {st : InscricaoStatus} {pres : Bool} {db2 : DB}
    (hwf : DBWF db) (hev : (findEvento db ev).isSome = true)
    (h : Inscricao.saveNew db ev part st pres = Except.ok db2) : DBWF db2 := by
  obtain ⟨hclean0, hdb2⟩ := saveNew_ok h
  obtain ⟨hclean, _⟩ := full_clean_ok hclean0
  obtain ⟨hevnd, hpknd, hfk, hcap, hpres⟩ := hwf
  set novo := Inscricao.registroNovo db ev part st pres with hnovo
  have hnovoev : novo.evento = ev := rfl
  rw [Option.isSome_iff_exists] at hev
  obtain ⟨ev0, hev0⟩ := hev
  subst hdb2
  refine ⟨hevnd, ?_, ?_, ?_, ?_⟩
  · unfold pksNodup at hpknd ⊢
    simp only [List.map_append, List.map_cons, List.map_nil]
    rw [List.nodup_append]
    refine ⟨hpknd, List.nodup_singleton _, ?_⟩
    intro a ha hb
    simp only [List.mem_singleton] at hb
    subst hb
    exact proximoPk_not_mem db.inscricoes ha
  · intro i hi
    rcases List.mem_append.mp hi with h1 | h1
    · exact hfk i h1
    · simp only [List.mem_singleton] at h1
      subst h1
      rw [hnovoev]
      unfold findEvento
      rw [List.find?_isSome]
      obtain ⟨hm, hk⟩ := findEvento_mem hev0
      exact ⟨ev0, hm, by simp [hk]⟩
  · intro e he
    rw [confirmadasCount_none]
    simp only [List.countP_append, List.countP_cons, List.countP_nil]
    by_cases hp : confOn e.id novo = true
    · have hp' := hp
      unfold confOn at hp'
      simp only [decide_eq_true_eq] at hp'
      have heid : ev = e.id := by rw [← hnovoev, hp'.1]
      have hev0e : ev0 = e := by
        have h2 := findEvento_of_mem hevnd he
        rw [← heid] at h2
        rw [hev0] at h2
        injection h2
      have hlt := (clean_ok_facts (by rw [hnovoev]; exact hev0) hclean).1 hp'.2
      rw [confirmadasCount_none] at hlt
      have hce : confOn novo.evento = confOn e.id := by rw [hnovoev, heid]
      rw [hce] at hlt
      rw [if_pos hp]
      have hcapeq : ev0.capacidade = e.capacidade := by rw [hev0e]
      omega
    · rw [if_neg hp]
      have hc := hcap e he
      rw [confirmadasCount_none] at hc
      omega
  · intro i hi
    rcases List.mem_append.mp hi with h1 | h1
    · exact hpres i h1
    · simp only [List.mem_singleton] at h1
      subst h1
      exact (clean_ok_facts (by rw [hnovoev]; exact hev0) hclean).2

theorem findEvento_congr {db db2 : DB} (h : db2.eventos = db.eventos) (k : Nat) :
    findEvento db2 k = findEvento db k := by
  unfold findEvento
  rw [h]

theorem findUsuario_congr {db db2 : DB} (h : db2.usuarios = db.usuarios) (k : Nat) :
    findUsuario db2 k = findUsuario db k := by
  unfold findUsuario
  rw [h]

theorem findInscricao_congr {db db2 : DB} (h : db2.inscricoes = db.inscricoes) (k : Nat) :
    findInscricao db2 k = findInscricao db k := by
  unfold findInscricao
  rw [h]

/-- Overwriting a record through `saveUpdate` preserves the well-formedness of
the store. -/
theorem saveUpdate_DBWF {db : DB} {x : Inscricao} {db2 : DB}
    (hwf : DBWF db) (hev : (findEvento db x.evento).isSome = true)
    (h : Inscricao.saveUpdate db x = Except.ok db2) : DBWF db2 := by
  obtain ⟨hclean0, hdb2⟩ := saveUpdate_ok h
  obtain ⟨hclean, _⟩ := full_clean_ok hclean0
  obtain ⟨hevnd, hpknd, hfk, hcap, hpres⟩ := hwf
  rw [Option.isSome_iff_exists] at hev
  obtain ⟨ev0, hev0⟩ := hev
  subst hdb2
  refine ⟨hevnd, ?_, ?_, ?_, ?_⟩
  · unfold pksNodup at hpknd ⊢
    rw [map_pk_replace]
    exact hpknd
  · intro i hi
    rcases List.mem_map.mp hi with ⟨j, hj, hij⟩
    by_cases hpk : j.pk = x.pk
    · rw [if_pos hpk] at hij
      subst hij
      show (findEvento db x.evento).isSome = true
      rw [hev0]
      rfl
    · rw [if_neg hpk] at hij
      subst hij
      show (findEvento db j.evento).isSome = true
      exact hfk j hj
  · intro e he
    rw [confirmadasCount_none]
    dsimp only
    by_cases hp : confOn e.id x = true
    · have hp' := hp
      unfold confOn at hp'
      simp only [decide_eq_true_eq] at hp'
      have heid : x.evento = e.id := hp'.1
      have hev0e : ev0 = e := by
        have h2 := findEvento_of_mem hevnd he
        rw [← heid] at h2
        rw [hev0] at h2
        injection h2
      have hlt := (clean_ok_facts hev0 hclean).1 hp'.2
      rw [confirmadasCount_some] at hlt
      rw [heid] at hlt
      have hb := countP_replace_le db.inscricoes x (confOn e.id)
      have hone := countP_pk_le_one db.inscricoes hpknd x.pk
      have hcapeq : ev0.capacidade = e.capacidade := by rw [hev0e]
      omega
    · have hb := countP_replace_le_of_neg db.inscricoes x (confOn e.id)
        (by simpa using hp)
      have hc := hcap e he
      rw [confirmadasCount_none] at hc
      omega
  · intro i hi
    rcases List.mem_map.mp hi with ⟨j, hj, hij⟩
    by_cases hpk : j.pk = x.pk
    · rw [if_pos hpk] at hij
      subst hij
      exact (clean_ok_facts hev0 hclean).2
    · rw [if_neg hpk] at hij
      subst hij
      exact hpres j hj

theorem statusUpdateRecord_evento (existing : Inscricao) (st : InscricaoStatus) :
    (statusUpdateRecord existing st).evento = existing.evento := by
  unfold statusUpdateRecord
  split <;> rfl

theorem manageInscricao_ok_DBWF {db : DB} {a e p : Nat} {st : InscricaoStatus} {db2 : DB}
    (hwf : DBWF db) (h : manageInscricao db a e p st = Except.ok db2) : DBWF db2 := by
  unfold manageInscricao at h
  split at h
  · exact Except.noConfusion h
  · rename_i evento hev
    split at h
    · exact Except.noConfusion h
    · split at h
      · exact Except.noConfusion h
      · split at h
        · exact Except.noConfusion h
        · split at h
          · exact Except.noConfusion h
          · split at h
            · exact Except.noConfusion h
            · split at h
              · exact Except.noConfusion h
              · split at h
                · rename_i existing hex
                  refine saveUpdate_DBWF hwf ?_ h
                  rw [statusUpdateRecord_evento]
                  rw [(findInscricaoPair_mem hex).2.1]
                  rw [hev]
                  rfl
                · split at h
                  · exact Except.noConfusion h
                  · refine saveNew_DBWF hwf ?_ h
                    rw [hev]
                    rfl

theorem inscricaoUsuarioPost_ok_DBWF {db : DB} {a e : Nat} {pr : Option Nat}
    {sr : Option InscricaoStatus} {db2 : DB}
    (hwf : DBWF db) (h : inscricaoUsuarioPost db a e pr sr = Except.ok db2) : DBWF db2 := by
  unfold inscricaoUsuarioPost at h
  split at h
  · exact Except.noConfusion h
  · split at h
    · exact Except.noConfusion h
    · split at h
      · exact Except.noConfusion h
      · split at h
        · exact Except.noConfusion h
        · split at h
          · exact Except.noConfusion h
          · split at h
            · exact Except.noConfusion h
            · rename_i evento hev
              split at h
              · exact Except.noConfusion h
              · split at h
                · rename_i existing hex
                  split at h
                  · refine saveUpdate_DBWF hwf ?_ h
                    rw [statusUpdateRecord_evento]
                    rw [(findInscricaoPair_mem hex).2.1]
                    rw [hev]
                    rfl
                  · exact Except.noConfusion h
                · split at h
                  · exact Except.noConfusion h
                  · split at h
                    · exact Except.noConfusion h
                    · refine saveNew_DBWF hwf ?_ h
                      rw [hev]
                      rfl

theorem detalhesEventoCancel_ok_DBWF {db : DB} {a e : Nat} {db2 : DB}
    (hwf : DBWF db) (h : detalhesEventoCancel db a e = Except.ok db2) : DBWF db2 := by
  unfold detalhesEventoCancel at h
  split at h
  · exact Except.noConfusion h
  · split at h
    · exact Except.noConfusion h
    · split at h
      · exact Except.noConfusion h
      · split at h
        · exact Except.noConfusion h
        · rename_i insc hins
          refine saveUpdate_DBWF hwf ?_ h
          show (findEvento db insc.evento).isSome = true
          exact hwf.2.2.1 insc (findInscricaoPair_mem hins).1

theorem inscricaoCancelApi_ok_DBWF {db : DB} {a pk : Nat} {db2 : DB}
    (hwf : DBWF db) (h : inscricaoCancelApi db a pk = Except.ok db2) : DBWF db2 := by
  unfold inscricaoCancelApi at h
  split at h
  · exact Except.noConfusion h
  · rename_i insc hins
    split at h
    · exact Except.noConfusion h
    · split at h
      · refine saveUpdate_DBWF hwf ?_ h
        show (findEvento db insc.evento).isSome = true
        exact hwf.2.2.1 insc (findInscricao_mem hins).1
      · exact Except.noConfusion h

theorem inscricaoCreateSelfApi_ok_DBWF {db : DB} {a e : Nat} {rs : Option InscricaoStatus}
    {rp : Option Bool} {db2 : DB}
    (hwf : DBWF db) (h : inscricaoCreateSelfApi db a e rs rp = Except.ok db2) : DBWF db2 := by
  unfold inscricaoCreateSelfApi at h
  split at h
  · exact Except.noConfusion h
  · split at h
    · exact Except.noConfusion h
    · split at h
      · exact Except.noConfusion h
      · split at h
        · exact Except.noConfusion h
        · rename_i hev
          refine saveNew_DBWF hwf ?_ h
          rw [hev]
          rfl

theorem inscricaoManageCreateApi_ok_DBWF {db : DB} {a e p : Nat} {st : InscricaoStatus}
    {pres : Bool} {db2 : DB}
    (hwf : DBWF db) (h : inscricaoManageCreateApi db a e p st pres = Except.ok db2) :
    DBWF db2 := by
  unfold inscricaoManageCreateApi at h
  split at h
  · exact Except.noConfusion h
  · split at h
    · exact Except.noConfusion h
    · split at h
      · exact Except.noConfusion h
      · rename_i evento hev
        split at h
        · exact Except.noConfusion h
        · split at h
          · exact Except.noConfusion h
          · split at h
            · exact Except.noConfusion h
            · split at h
              · exact Except.noConfusion h
              · refine saveNew_DBWF hwf ?_ h
                rw [hev]
                rfl

theorem inscricaoUpdateApi_ok_DBWF {db : DB} {a pk : Nat} {st : Option InscricaoStatus}
    {pres : Option Bool} {db2 : DB}
    (hwf : DBWF db) (h : inscricaoUpdateApi db a pk st pres = Except.ok db2) : DBWF db2 := by
  unfold inscricaoUpdateApi at h
  split at h
  · exact Except.noConfusion h
  · split at h
    · exact Except.noConfusion h
    · split at h
      · exact Except.noConfusion h
      · rename_i insc hins
        split at h
        · exact Except.noConfusion h
        · refine saveUpdate_DBWF hwf ?_ h
          show (findEvento db insc.evento).isSome = true
          exact hwf.2.2.1 insc (findInscricao_mem hins).1

theorem confirmadasCount_congr {db db2 : DB} (h : db2.inscricoes = db.inscricoes)
    (ev : Nat) (excl : Option Nat) :
    confirmadasCount db2 ev excl = confirmadasCount db ev excl := by
  unfold confirmadasCount
  rw [h]

/-- Well-formedness only depends on the events and registrations tables. -/
theorem DBWF_fields {db db2 : DB} (hev : db2.eventos = db.eventos)
    (hin : db2.inscricoes = db.inscricoes) (hwf : DBWF db) : DBWF db2 := by
  obtain ⟨h1, h2, h3, h4, h5⟩ := hwf
  refine ⟨?_, ?_, ?_, ?_, ?_⟩
  · unfold eventosNodup
    rw [hev]
    exact h1
  · unfold pksNodup
    rw [hin]
    exact h2
  · intro i hi
    rw [hin] at hi
    rw [findEvento_congr hev]
    exact h3 i hi
  · intro e he
    rw [hev] at he
    rw [confirmadasCount_congr hin]
    exact h4 e he
  · intro i hi
    rw [hin] at hi
    exact h5 i hi

theorem updateOrCreate_fields {db : DB} {k : Nat} {em : Option Nat} {c : Nat}
    {v : Option Int} {o : String} {db2 : DB}
    (h : Certificado.updateOrCreate db k em c v o = Except.ok db2) :
    db2.usuarios = db.usuarios ∧ db2.eventos = db.eventos ∧
    db2.inscricoes = db.inscricoes := by
  unfold Certificado.updateOrCreate Certificado.saveNew at h
  split at h
  · split at h
    · exact Except.noConfusion h
    · injection h with h
      subst h
      exact ⟨rfl, rfl, rfl⟩
  · split at h
    · exact Except.noConfusion h
    · injection h with h
      subst h
      exact ⟨rfl, rfl, rfl⟩

theorem emissaoCertificadoPost_ok_DBWF {db : DB} {a : Nat} {iid eid : Option Nat}
    {c : Option Int} {v : Option Int} {o : String} {db2 : DB}
    (hwf : DBWF db) (h : emissaoCertificadoPost db a iid eid c v o = Except.ok db2) :
    DBWF db2 := by
  unfold emissaoCertificadoPost at h
  split at h
  · exact Except.noConfusion h
  · obtain ⟨_, hev, hin⟩ := updateOrCreate_fields h
    exact DBWF_fields hev hin hwf

theorem inscricaoHardDelete_ok_DBWF {db : DB} {a pk : Nat} {db2 : DB}
    (hwf : DBWF db) (h : inscricaoHardDelete db a pk = Except.ok db2) : DBWF db2 := by
  unfold inscricaoHardDelete at h
  split at h
  · exact Except.noConfusion h
  · split at h
    · exact Except.noConfusion h
    · split at h
      · exact Except.noConfusion h
      · injection h with h
        subst h
        obtain ⟨h1, h2, h3, h4, h5⟩ := hwf
        refine ⟨h1, ?_, ?_, ?_, ?_⟩
        · unfold pksNodup at h2 ⊢
          exact ((List.filter_sublist _).map _).nodup h2
        · intro i hi
          have := List.mem_of_mem_filter hi
          show (findEvento db i.evento).isSome = true
          exact h3 i this
        · intro e he
          rw [confirmadasCount_none] at *
          calc (db.inscricoes.filter (fun i => decide (i.pk ≠ pk))).countP (confOn e.id)
              ≤ db.inscricoes.countP (confOn e.id) := (List.filter_sublist _).countP_le _
            _ ≤ e.capacidade := by
                have := h4 e he
                rw [confirmadasCount_none] at this
                exact this
        · intro i hi
          exact h5 i (List.mem_of_mem_filter hi)

theorem eventoDelete_ok_DBWF {db : DB} {a pk : Nat} {db2 : DB}
    (hwf : DBWF db) (h : eventoDelete db a pk = Except.ok db2) : DBWF db2 := by
  unfold eventoDelete at h
  split at h
  · exact Except.noConfusion h
  · split at h
    · exact Except.noConfusion h
    · split at h
      · exact Except.noConfusion h
      · split at h
        · exact Except.noConfusion h
        · injection h with h
          subst h
          obtain ⟨h1, h2, h3, h4, h5⟩ := hwf
          refine ⟨?_, ?_, ?_, ?_, ?_⟩
          · unfold eventosNodup at h1 ⊢
            exact ((List.filter_sublist _).map _).nodup h1
          · unfold pksNodup at h2 ⊢
            exact ((List.filter_sublist _).map _).nodup h2
          · intro i hi
            rw [List.mem_filter] at hi
            have hfk := h3 i hi.1
            rw [Option.isSome_iff_exists] at hfk
            obtain ⟨e0, he0⟩ := hfk
            obtain ⟨hmem, hid⟩ := findEvento_mem he0
            unfold findEvento
            rw [List.find?_isSome]
            refine ⟨e0, ?_, by simp [hid]⟩
            rw [List.mem_filter]
            refine ⟨hmem, ?_⟩
            simp only [decide_eq_true_eq] at hi ⊢
            rw [hid]
            exact hi.2
          · intro e he
            rw [List.mem_filter] at he
            rw [confirmadasCount_none]
            calc (db.inscricoes.filter (fun i => decide (i.evento ≠ pk))).countP (confOn e.id)
                ≤ db.inscricoes.countP (confOn e.id) := (List.filter_sublist _).countP_le _
              _ ≤ e.capacidade := by
                  have := h4 e he.1
                  rw [confirmadasCount_none] at this
                  exact this
          · intro i hi
            exact h5 i (List.mem_of_mem_filter hi)

theorem presencaLoop_DBWF (marcadas : List Nat) :
    ∀ (pks : List Nat) (db : DB), DBWF db → DBWF (presencaLoop db pks marcadas) := by
  intro pks
  induction pks with
  | nil =>
    intro db hwf
    simpa [presencaLoop] using hwf
  | cons pk rest ih =>
    intro db hwf
    unfold presencaLoop
    split
    · exact ih db hwf
    · rename_i i hi
      split
      · exact ih db hwf
      · split
        · rename_i db2 hsu
          refine ih db2 (saveUpdate_DBWF hwf ?_ hsu)
          show (findEvento db i.evento).isSome = true
          exact hwf.2.2.1 i (findInscricao_mem hi).1
        · exact hwf

theorem presencaPost_DBWF {db : DB} {a e : Nat} {marcadas : List Nat}
    (hwf : DBWF db) : DBWF (presencaPost db a e marcadas) := by
  unfold presencaPost
  split
  · exact hwf
  · split
    · exact hwf
    · split
      · exact hwf
      · exact presencaLoop_DBWF marcadas _ db hwf

/-- Every handler of the system preserves the well-formedness of the store. -/
theorem applyOp_DBWF (db : DB) (op : Op) (hwf : DBWF db) : DBWF (applyOp db op) := by
  cases op with
  | manage a e p st =>
    simp only [applyOp]
    cases hres : manageInscricao db a e p st with
    | error err => simpa [resultado, hres] using hwf
    | ok db2 => simpa [resultado, hres] using manageInscricao_ok_DBWF hwf hres
  | inscreverUsuario a e p st =>
    simp only [applyOp]
    cases hres : inscricaoUsuarioPost db a e p st with
    | error err => simpa [resultado, hres] using hwf
    | ok db2 => simpa [resultado, hres] using inscricaoUsuarioPost_ok_DBWF hwf hres
  | cancelarDetalhes a e =>
    simp only [applyOp]
    cases hres : detalhesEventoCancel db a e with
    | error err => simpa [resultado, hres] using hwf
    | ok db2 => simpa [resultado, hres] using detalhesEventoCancel_ok_DBWF hwf hres
  | cancelarApi a pk =>
    simp only [applyOp]
    cases hres : inscricaoCancelApi db a pk with
    | error err => simpa [resultado, hres] using hwf
    | ok db2 => simpa [resultado, hres] using inscricaoCancelApi_ok_DBWF hwf hres
  | criarSelfApi a e rs rp =>
    simp only [applyOp]
    cases hres : inscricaoCreateSelfApi db a e rs rp with
    | error err => simpa [resultado, hres] using hwf
    | ok db2 => simpa [resultado, hres] using inscricaoCreateSelfApi_ok_DBWF hwf hres
  | criarManageApi a e p st pr =>
    simp only [applyOp]
    cases hres : inscricaoManageCreateApi db a e p st pr with
    | error err => simpa [resultado, hres] using hwf
    | ok db2 => simpa [resultado, hres] using inscricaoManageCreateApi_ok_DBWF hwf hres
  | atualizarApi a pk st pr =>
    simp only [applyOp]
    cases hres : inscricaoUpdateApi db a pk st pr with
    | error err => simpa [resultado, hres] using hwf
    | ok db2 => simpa [resultado, hres] using inscricaoUpdateApi_ok_DBWF hwf hres
  | marcarPresenca a e m =>
    simpa [applyOp] using presencaPost_DBWF hwf
  | emitirCertificado a iid eid c v o =>
    simp only [applyOp]
    cases hres : emissaoCertificadoPost db a iid eid c v o with
    | error err => simpa [resultado, hres] using hwf
    | ok db2 => simpa [resultado, hres] using emissaoCertificadoPost_ok_DBWF hwf hres
  | deletarInscricao a pk =>
    simp only [applyOp]
    cases hres : inscricaoHardDelete db a pk with
    | error err => simpa [resultado, hres] using hwf
    | ok db2 => simpa [resultado, hres] using inscricaoHardDelete_ok_DBWF hwf hres
  | deletarEvento a pk =>
    simp only [applyOp]
    cases hres : eventoDelete db a pk with
    | error err => simpa [resultado, hres] using hwf
    | ok db2 => simpa [resultado, hres] using eventoDelete_ok_DBWF hwf hres

/-- Well-formedness is preserved by any sequence of requests. -/
theorem runOps_DBWF (ops : List Op) : ∀ db : DB, DBWF db → DBWF (runOps db ops) := by
  induction ops with
  | nil =>
    intro db hwf
    simpa [runOps] using hwf
  | cons op rest ih =>
    intro db hwf
    show DBWF (runOps (applyOp db op) rest)
    exact ih _ (applyOp_DBWF db op hwf)

theorem certIntegrity_transfer {db db2 : DB} (h : certIntegrity db)
    (hc : db2.certificados = db.certificados)
    (hins : ∀ k : Nat, (∃ i ∈ db.inscricoes, i.pk = k) → ∃ i ∈ db2.inscricoes, i.pk = k) :
    certIntegrity db2 := by
  intro c hcmem
  rw [hc] at hcmem
  exact hins c.inscricao (h c hcmem)

theorem exists_pk_of_map_eq {l l2 : List Inscricao}
    (h : l2.map (fun i => i.pk) = l.map (fun i => i.pk)) (k : Nat)
    (hx : ∃ i ∈ l, i.pk = k) : ∃ i ∈ l2, i.pk = k := by
  obtain ⟨i, hi, hk⟩ := hx
  have hmem : k ∈ l2.map (fun i => i.pk) := by
    rw [h]
    exact hk ▸ List.mem_map_of_mem (fun i => i.pk) hi
  rcases List.mem_map.mp hmem with ⟨j, hj, hjk⟩
  exact ⟨j, hj, hjk⟩

theorem saveNew_certIntegrity {db : DB} {ev part : Nat} {st : InscricaoStatus}
    {pres : Bool} {db2 : DB} (hci : certIntegrity db)
    (h : Inscricao.saveNew db ev part st pres = Except.ok db2) : certIntegrity db2 := by
  obtain ⟨_, hdb2⟩ := saveNew_ok h
  subst hdb2
  refine certIntegrity_transfer hci rfl ?_
  intro k hk
  obtain ⟨i, hi, hik⟩ := hk
  exact ⟨i, List.mem_append_left _ hi, hik⟩

theorem saveUpdate_certIntegrity {db : DB} {x : Inscricao} {db2 : DB}
    (hci : certIntegrity db) (h : Inscricao.saveUpdate db x = Except.ok db2) :
    certIntegrity db2 := by
  obtain ⟨_, hdb2⟩ := saveUpdate_ok h
  subst hdb2
  refine certIntegrity_transfer hci rfl ?_
  intro k hk
  exact exists_pk_of_map_eq (map_pk_replace db.inscricoes x) k hk

/-- What a successful `Certificado.clean` guarantees. -/
theorem certificadoClean_ok_facts {db : DB} {self : Certificado}
    (h : Certificado.clean db self = Except.ok ()) :
    ∃ insc, findInscricao db self.inscricao = some insc ∧
      insc.status = InscricaoStatus.CONFIRMADA ∧ insc.presenca_confirmada = true := by
  unfold Certificado.clean at h
  split at h
  · exact Except.noConfusion h
  · rename_i insc hins
    split at h
    · exact Except.noConfusion h
    · split at h
      · exact Except.noConfusion h
      · rename_i h1 h2
        refine ⟨insc, hins, ?_, ?_⟩
        · by_contra hne
          exact h1 hne
        · by_cases hb : insc.presenca_confirmada = true
          · exact hb
          · simp only [Bool.not_eq_true] at hb
            exact absurd hb h2

theorem updateOrCreate_certIntegrity {db : DB} {k : Nat} {em : Option Nat} {c : Nat}
    {v : Option Int} {o : String} {db2 : DB}
    (hci : certIntegrity db) (h : Certificado.updateOrCreate db k em c v o = Except.ok db2) :
    certIntegrity db2 := by
  unfold Certificado.updateOrCreate Certificado.saveNew at h
  split at h
  · rename_i existente hfind
    split at h
    · exact Except.noConfusion h
    · injection h with h
      subst h
      intro c2 hc2
      rcases List.mem_map.mp hc2 with ⟨c0, hc0, hc0eq⟩
      by_cases hkey : c0.inscricao = k
      · rw [if_pos hkey] at hc0eq
        subst hc0eq
        show ∃ i ∈ db.inscricoes, i.pk = (certificadoAtualizado existente em c v o).inscricao
        have : (certificadoAtualizado existente em c v o).inscricao = existente.inscricao := rfl
        rw [this]
        exact hci existente (findCertificado_mem hfind).1
      · rw [if_neg hkey] at hc0eq
        subst hc0eq
        exact hci c0 hc0
  · rename_i hfind
    split at h
    · exact Except.noConfusion h
    · rename_i u hclean
      injection h with h
      subst h
      intro c2 hc2
      rcases List.mem_append.mp hc2 with h1 | h1
      · exact hci c2 h1
      · simp only [List.mem_singleton] at h1
        subst h1
        obtain ⟨insc, hins, _, _⟩ := certificadoClean_ok_facts hclean
        obtain ⟨hmem, hpk⟩ := findInscricao_mem hins
        exact ⟨insc, hmem, hpk⟩

theorem manageInscricao_ok_save {db : DB} {a e p : Nat} {st : InscricaoStatus} {db2 : DB}
    (h : manageInscricao db a e p st = Except.ok db2) :
    (∃ x, Inscricao.saveUpdate db x = Except.ok db2) ∨
    (∃ ev pa s pr, Inscricao.saveNew db ev pa s pr = Except.ok db2) := by
  unfold manageInscricao at h
  split at h
  · exact Except.noConfusion h
  · split at h
    · exact Except.noConfusion h
    · split at h
      · exact Except.noConfusion h
      · split at h
        · exact Except.noConfusion h
        · split at h
          · exact Except.noConfusion h
          · split at h
            · exact Except.noConfusion h
            · split at h
              · exact Except.noConfusion h
              · split at h
                · exact Or.inl ⟨_, h⟩
                · split at h
                  · exact Except.noConfusion h
                  · exact Or.inr ⟨_, _, _, _, h⟩

theorem inscricaoUsuarioPost_ok_save {db : DB} {a e : Nat} {pr : Option Nat}
    {sr : Option InscricaoStatus} {db2 : DB}
    (h : inscricaoUsuarioPost db a e pr sr = Except.ok db2) :
    (∃ x, Inscricao.saveUpdate db x = Except.ok db2) ∨
    (∃ ev pa s prs, Inscricao.saveNew db ev pa s prs = Except.ok db2) := by
  unfold inscricaoUsuarioPost at h
  split at h
  · exact Except.noConfusion h
  · split at h
    · exact Except.noConfusion h
    · split at h
      · exact Except.noConfusion h
      · split at h
        · exact Except.noConfusion h
        · split at h
          · exact Except.noConfusion h
          · split at h
            · exact Except.noConfusion h
            · split at h
              · exact Except.noConfusion h
              · split at h
                · split at h
                  · exact Or.inl ⟨_, h⟩
                  · exact Except.noConfusion h
                · split at h
                  · exact Except.noConfusion h
                  · split at h
                    · exact Except.noConfusion h
                    · exact Or.inr ⟨_, _, _, _, h⟩

theorem detalhesEventoCancel_ok_save {db : DB} {a e : Nat} {db2 : DB}
    (h : detalhesEventoCancel db a e = Except.ok db2) :
    ∃ x, Inscricao.saveUpdate db x = Except.ok db2 := by
  unfold detalhesEventoCancel at h
  split at h
  · exact Except.noConfusion h
  · split at h
    · exact Except.noConfusion h
    · split at h
      · exact Except.noConfusion h
      · split at h
        · exact Except.noConfusion h
        · exact ⟨_, h⟩

theorem inscricaoCancelApi_ok_save {db : DB} {a pk : Nat} {db2 : DB}
    (h : inscricaoCancelApi db a pk = Except.ok db2) :
    ∃ x, Inscricao.saveUpdate db x = Except.ok db2 := by
  unfold inscricaoCancelApi at h
  split at h
  · exact Except.noConfusion h
  · split at h
    · exact Except.noConfusion h
    · split at h
      · exact ⟨_, h⟩
      · exact Except.noConfusion h

theorem inscricaoCreateSelfApi_ok_save {db : DB} {a e : Nat} {rs : Option InscricaoStatus}
    {rp : Option Bool} {db2 : DB}
    (h : inscricaoCreateSelfApi db a e rs rp = Except.ok db2) :
    ∃ ev pa s prs, Inscricao.saveNew db ev pa s prs = Except.ok db2 := by
  unfold inscricaoCreateSelfApi at h
  split at h
  · exact Except.noConfusion h
  · split at h
    · exact Except.noConfusion h
    · split at h
      · exact Except.noConfusion h
      · split at h
        · exact Except.noConfusion h
        · exact ⟨_, _, _, _, h⟩

theorem inscricaoManageCreateApi_ok_save {db : DB} {a e p : Nat} {st : InscricaoStatus}
    {pres : Bool} {db2 : DB}
    (h : inscricaoManageCreateApi db a e p st pres = Except.ok db2) :
    ∃ ev pa s prs, Inscricao.saveNew db ev pa s prs = Except.ok db2 := by
  unfold inscricaoManageCreateApi at h
  split at h
  · exact Except.noConfusion h
  · split at h
    · exact Except.noConfusion h
    · split at h
      · exact Except.noConfusion h
      · split at h
        · exact Except.noConfusion h
        · split at h
          · exact Except.noConfusion h
          · split at h
            · exact Except.noConfusion h
            · split at h
              · exact Except.noConfusion h
              · exact ⟨_, _, _, _, h⟩

theorem inscricaoUpdateApi_ok_save {db : DB} {a pk : Nat} {st : Option InscricaoStatus}
    {pres : Option Bool} {db2 : DB}
    (h : inscricaoUpdateApi db a pk st pres = Except.ok db2) :
    ∃ x, Inscricao.saveUpdate db x = Except.ok db2 := by
  unfold inscricaoUpdateApi at h
  split at h
  · exact Except.noConfusion h
  · split at h
    · exact Except.noConfusion h
    · split at h
      · exact Except.noConfusion h
      · split at h
        · exact Except.noConfusion h
        · exact ⟨_, h⟩

theorem emissaoCertificadoPost_ok_upsert {db : DB} {a : Nat} {iid eid : Option Nat}
    {c v : Option Int} {o : String} {db2 : DB}
    (h : emissaoCertificadoPost db a iid eid c v o = Except.ok db2) :
    ∃ k em cn vn on2, Certificado.updateOrCreate db k em cn vn on2 = Except.ok db2 := by
  unfold emissaoCertificadoPost at h
  split at h
  · exact Except.noConfusion h
  · exact ⟨_, _, _, _, _, h⟩

theorem presencaLoop_certIntegrity (marcadas : List Nat) :
    ∀ (pks : List Nat) (db : DB), certIntegrity db →
      certIntegrity (presencaLoop db pks marcadas) := by
  intro pks
  induction pks with
  | nil =>
    intro db hci
    simpa [presencaLoop] using hci
  | cons pk rest ih =>
    intro db hci
    unfold presencaLoop
    split
    · exact ih db hci
    · rename_i i hi
      split
      · exact ih db hci
      · split
        · rename_i db2 hsu
          exact ih db2 (saveUpdate_certIntegrity hci hsu)
        · exact hci

theorem inscricaoHardDelete_certIntegrity {db : DB} {a pk : Nat} {db2 : DB}
    (hci : certIntegrity db) (h : inscricaoHardDelete db a pk = Except.ok db2) :
    certIntegrity db2 := by
  unfold inscricaoHardDelete at h
  split at h
  · exact Except.noConfusion h
  · split at h
    · exact Except.noConfusion h
    · split at h
      · exact Except.noConfusion h
      · injection h with h
        subst h
        intro c hc
        rw [List.mem_filter] at hc
        obtain ⟨i, hi, hik⟩ := hci c hc.1
        refine ⟨i, ?_, hik⟩
        rw [List.mem_filter]
        refine ⟨hi, ?_⟩
        simp only [decide_eq_true_eq] at hc ⊢
        rw [hik]
        exact hc.2

theorem eventoDelete_certIntegrity {db : DB} {a pk : Nat} {db2 : DB}
    (hci : certIntegrity db) (h : eventoDelete db a pk = Except.ok db2) :
    certIntegrity db2 := by
  unfold eventoDelete at h
  split at h
  · exact Except.noConfusion h
  · split at h
    · exact Except.noConfusion h
    · split at h
      · exact Except.noConfusion h
      · split at h
        · exact Except.noConfusion h
        · injection h with h
          subst h
          intro c hc
          rw [List.mem_filter] at hc
          obtain ⟨i, hi, hik⟩ := hci c hc.1
          have hne : i.evento ≠ pk := by
            intro hcontra
            have h2 := hc.2
            simp only [decide_eq_true_eq] at h2
            exact h2 ⟨i, hi, hcontra, hik⟩
          refine ⟨i, ?_, hik⟩
          rw [List.mem_filter]
          exact ⟨hi, by simpa using hne⟩

/-- Every handler preserves certificate-to-registration referential
integrity. -/
theorem applyOp_certIntegrity (db : DB) (op : Op) (hci : certIntegrity db) :
    certIntegrity (applyOp db op) := by
  have hsave :
      ∀ {db2 : DB},
        ((∃ x, Inscricao.saveUpdate db x = Except.ok db2) ∨
          (∃ ev pa s prs, Inscricao.saveNew db ev pa s prs = Except.ok db2)) →
        certIntegrity db2 := by
    intro db2 hor
    rcases hor with ⟨x, hx⟩ | ⟨ev, pa, s, prs, hx⟩
    · exact saveUpdate_certIntegrity hci hx
    · exact saveNew_certIntegrity hci hx
  cases op with
  | manage a e p st =>
    simp only [applyOp]
    cases hres : manageInscricao db a e p st with
    | error err => simpa [resultado, hres] using hci
    | ok db2 => simpa [resultado, hres] using hsave (manageInscricao_ok_save hres)
  | inscreverUsuario a e p st =>
    simp only [applyOp]
    cases hres : inscricaoUsuarioPost db a e p st with
    | error err => simpa [resultado, hres] using hci
    | ok db2 => simpa [resultado, hres] using hsave (inscricaoUsuarioPost_ok_save hres)
  | cancelarDetalhes a e =>
    simp only [applyOp]
    cases hres : detalhesEventoCancel db a e with
    | error err => simpa [resultado, hres] using hci
    | ok db2 => simpa [resultado, hres] using hsave (Or.inl (detalhesEventoCancel_ok_save hres))
  | cancelarApi a pk =>
    simp only [applyOp]
    cases hres : inscricaoCancelApi db a pk with
    | error err => simpa [resultado, hres] using hci
    | ok db2 => simpa [resultado, hres] using hsave (Or.inl (inscricaoCancelApi_ok_save hres))
  | criarSelfApi a e rs rp =>
    simp only [applyOp]
    cases hres : inscricaoCreateSelfApi db a e rs rp with
    | error err => simpa [resultado, hres] using hci
    | ok db2 => simpa [resultado, hres] using hsave (Or.inr (inscricaoCreateSelfApi_ok_save hres))
  | criarManageApi a e p st pr =>
    simp only [applyOp]
    cases hres : inscricaoManageCreateApi db a e p st pr with
    | error err => simpa [resultado, hres] using hci
    | ok db2 => simpa [resultado, hres] using hsave (Or.inr (inscricaoManageCreateApi_ok_save hres))
  | atualizarApi a pk st pr =>
    simp only [applyOp]
    cases hres : inscricaoUpdateApi db a pk st pr with
    | error err => simpa [resultado, hres] using hci
    | ok db2 => simpa [resultado, hres] using hsave (Or.inl (inscricaoUpdateApi_ok_save hres))
  | marcarPresenca a e m =>
    simp only [applyOp]
    unfold presencaPost
    split
    · exact hci
    · split
      · exact hci
      · split
        · exact hci
        · exact presencaLoop_certIntegrity m _ db hci
  | emitirCertificado a iid eid c v o =>
    simp only [applyOp]
    cases hres : emissaoCertificadoPost db a iid eid c v o with
    | error err => simpa [resultado, hres] using hci
    | ok db2 =>
      obtain ⟨k, em, cn, vn, on2, hup⟩ := emissaoCertificadoPost_ok_upsert hres
      simpa [resultado, hres] using updateOrCreate_certIntegrity hci hup
  | deletarInscricao a pk =>
    simp only [applyOp]
    cases hres : inscricaoHardDelete db a pk with
    | error err => simpa [resultado, hres] using hci
    | ok db2 => simpa [resultado, hres] using inscricaoHardDelete_certIntegrity hci hres
  | deletarEvento a pk =>
    simp only [applyOp]
    cases hres : eventoDelete db a pk with
    | error err => simpa [resultado, hres] using hci
    | ok db2 => simpa [resultado, hres] using eventoDelete_certIntegrity hci hres

/-- Certificate referential integrity is preserved by any sequence of
requests. -/
theorem runOps_certIntegrity (ops : List Op) :
    ∀ db : DB, certIntegrity db → certIntegrity (runOps db ops) := by
  induction ops with
  | nil =>
    intro db hci
    simpa [runOps] using hci
  | cons op rest ih =>
    intro db hci
    show certIntegrity (runOps (applyOp db op) rest)
    exact ih _ (applyOp_certIntegrity db op hci)

theorem countP_key_le_one (l : List Certificado)
    (h : (l.map (fun c => c.inscricao)).Nodup) (k : Nat) :
    l.countP (fun c => decide (c.inscricao = k)) ≤ 1 := by
  induction l with
  | nil => simp
  | cons a t ih =>
    simp only [List.map_cons, List.nodup_cons] at h
    simp only [List.countP_cons]
    by_cases hk : a.inscricao = k
    · have hzero : t.countP (fun c => decide (c.inscricao = k)) = 0 := by
        rw [List.countP_eq_zero]
        intro c hc
        simp only [decide_eq_true_eq]
        intro hck
        exact h.1 (hk ▸ hck ▸ List.mem_map_of_mem (fun c => c.inscricao) hc)
      rw [hzero]
      simp [hk]
    · have : decide (a.inscricao = k) = false := by simp [hk]
      rw [this]
      simpa using ih h.2

theorem countP_key_replace (l : List Certificado) (k : Nat) (novo : Certificado)
    (hk : novo.inscricao = k) :
    (l.map (fun c => if c.inscricao = k then novo else c)).countP
        (fun c => decide (c.inscricao = k)) =
      l.countP (fun c => decide (c.inscricao = k)) := by
  induction l with
  | nil => simp
  | cons a t ih =>
    simp only [List.map_cons, List.countP_cons]
    by_cases ha : a.inscricao = k
    · rw [if_pos ha]
      simp [hk, ha, ih]
    · rw [if_neg ha]
      simp only [ih]

theorem findCertificado_key_replace (l : List Certificado) (k : Nat) (novo : Certificado)
    (hk : novo.inscricao = k) :
    (l.map (fun c => if c.inscricao = k then novo else c)).find?
        (fun c => decide (c.inscricao = k)) =
      (l.find? (fun c => decide (c.inscricao = k))).map (fun _ => novo) := by
  induction l with
  | nil => simp
  | cons a t ih =>
    simp only [List.map_cons]
    by_cases ha : a.inscricao = k
    · rw [if_pos ha]
      rw [List.find?_cons_of_pos _ (by simp [hk])]
      rw [List.find?_cons_of_pos _ (by simp [ha])]
      rfl
    · rw [if_neg ha]
      rw [List.find?_cons_of_neg _ (by simp [ha])]
      rw [List.find?_cons_of_neg _ (by simp [ha])]
      exact ih

theorem countP_key_zero_of_find_none {l : List Certificado} {k : Nat}
    (h : l.find? (fun c => decide (c.inscricao = k)) = none) :
    l.countP (fun c => decide (c.inscricao = k)) = 0 := by
  rw [List.countP_eq_zero]
  intro c hc
  have := List.find?_eq_none.mp h c hc
  simpa using this

theorem countP_key_pos_of_find_some {l : List Certificado} {k : Nat} {c : Certificado}
    (h : l.find? (fun c => decide (c.inscricao = k)) = some c) :
    1 ≤ l.countP (fun c => decide (c.inscricao = k)) := by
  have hm := List.mem_of_find?_eq_some h
  have hp := List.find?_some h
  have : 0 < l.countP (fun c => decide (c.inscricao = k)) :=
    List.countP_pos.mpr ⟨c, hm, hp⟩
  omega

theorem validadeInvalida_congr {db db2 : DB} (hev : db2.eventos = db.eventos)
    (insc : Inscricao) (v : Option Int) :
    validadeInvalida db2 insc v = validadeInvalida db insc v := by
  unfold validadeInvalida
  rw [findEvento_congr hev]

theorem eventoDoOrganizador_congr {db db2 : DB} (hev : db2.eventos = db.eventos)
    (e u : Nat) : eventoDoOrganizador db2 e u = eventoDoOrganizador db e u := by
  unfold eventoDoOrganizador
  rw [findEvento_congr hev]

/-- the eligibility checks of the certificate-issuing view never read the
certificates table, so they evaluate the same on any store that agrees on
users, events and registrations. -/
theorem emissaoChecks_congr {db db2 : DB} (hu : db2.usuarios = db.usuarios)
    (hev : db2.eventos = db.eventos) (hin : db2.inscricoes = db.inscricoes)
    (a : Nat) (iid eid : Option Nat) (c v : Option Int) :
    emissaoChecks db2 a iid eid c v = emissaoChecks db a iid eid c v := by
  unfold emissaoChecks
  simp only [findUsuario_congr hu, findInscricao_congr hin, validadeInvalida_congr hev,
    eventoDoOrganizador_congr hev]

/-- `Certificado.clean` only reads the registration key and the issuer. -/
theorem Certificado.clean_congr {db db2 : DB} (hu : db2.usuarios = db.usuarios)
    (hin : db2.inscricoes = db.inscricoes) {s1 s2 : Certificado}
    (hk : s1.inscricao = s2.inscricao) (hem : s1.emitido_por = s2.emitido_por) :
    Certificado.clean db2 s1 = Certificado.clean db s2 := by
  unfold Certificado.clean
  rw [findInscricao_congr hin, hk, hem]
  simp only [findUsuario_congr hu]

theorem emissaoChecks_some_ok {db : DB} {a iid eid : Nat} {c : Int} {v : Option Int}
    {t : Nat × Nat × Nat}
    (h : emissaoChecks db a (some iid) (some eid) (some c) v = Except.ok t) :
    t = (iid, eid, c.toNat) := by
  unfold emissaoChecks at h
  repeat' split at h
  all_goals first
    | exact Except.noConfusion h
    | simp_all

theorem emissaoChecks_ok_elegivel {db : DB} {a : Nat} {iid eid : Option Nat}
    {c v : Option Int} {t : Nat × Nat × Nat}
    (h : emissaoChecks db a iid eid c v = Except.ok t) :
    ∃ insc, findInscricao db t.1 = some insc ∧
      insc.status = InscricaoStatus.CONFIRMADA ∧ insc.presenca_confirmada = true := by
  unfold emissaoChecks at h
  split at h
  · exact Except.noConfusion h
  · split at h
    · exact Except.noConfusion h
    · split at h
      · exact Except.noConfusion h
      · split at h
        · exact Except.noConfusion h
        · split at h
          · exact Except.noConfusion h
          · split at h
            · exact Except.noConfusion h
            · split at h
              · exact Except.noConfusion h
              · rename_i insc hins
                split at h
                · exact Except.noConfusion h
                · split at h
                  · exact Except.noConfusion h
                  · split at h
                    · exact Except.noConfusion h
                    · rename_i helig
                      split at h
                      · exact Except.noConfusion h
                      · split at h
                        · exact Except.noConfusion h
                        · injection h with h
                          subst h
                          refine ⟨insc, hins, ?_⟩
                          by_contra hne
                          exact helig (by tauto)

/-- After a successful upsert there is exactly one certificate for the
registration, and it carries the call's issuer, hours, validity and notes. -/
theorem updateOrCreate_post {db : DB} {k : Nat} {em : Option Nat} {c : Nat}
    {v : Option Int} {o : String} {db2 : DB}
    (hnd : (db.certificados.map (fun x => x.inscricao)).Nodup)
    (h : Certificado.updateOrCreate db k em c v o = Except.ok db2) :
    db2.certificados.countP (fun x => decide (x.inscricao = k)) = 1 ∧
    (∃ cert, findCertificado db2 k = some cert ∧ cert.inscricao = k ∧
      cert.emitido_por = em ∧ cert.carga_horaria = c ∧
      cert.validade = v ∧ cert.observacoes = o) ∧
    (∃ s, Certificado.clean db s = Except.ok () ∧ s.inscricao = k ∧ s.emitido_por = em) := by
  unfold Certificado.updateOrCreate Certificado.saveNew at h
  split at h
  · rename_i existente hfind
    split at h
    · exact Except.noConfusion h
    · rename_i u hclean
      injection h with h
      subst h
      have hkey : (certificadoAtualizado existente em c v o).inscricao = k := by
        show existente.inscricao = k
        exact (findCertificado_mem hfind).2
      refine ⟨?_, ?_, ?_⟩
      · show (db.certificados.map _).countP _ = 1
        rw [countP_key_replace db.certificados k _ hkey]
        have h1 := @countP_key_pos_of_find_some db.certificados k existente hfind
        have h2 := countP_key_le_one db.certificados hnd k
        omega
      · refine ⟨certificadoAtualizado existente em c v o, ?_, hkey, rfl, rfl, rfl, rfl⟩
        show (db.certificados.map _).find? _ = _
        rw [findCertificado_key_replace db.certificados k _ hkey]
        unfold findCertificado at hfind
        rw [hfind]
        rfl
      · exact ⟨certificadoAtualizado existente em c v o, hclean, hkey, rfl⟩
  · rename_i hfind
    split at h
    · exact Except.noConfusion h
    · rename_i u hclean
      injection h with h
      subst h
      refine ⟨?_, ?_, ?_⟩
      · show (db.certificados ++ [_]).countP _ = 1
        rw [List.countP_append]
        rw [countP_key_zero_of_find_none hfind]
        simp
      · refine
          ⟨{ inscricao := k, emitido_por := em, codigo := proximoCodigo db.certificados,
             carga_horaria := c, validade := v, observacoes := o },
           ?_, rfl, rfl, rfl, rfl, rfl⟩
        show (db.certificados ++ [_]).find? _ = _
        rw [List.find?_append]
        unfold findCertificado at hfind
        rw [hfind]
        simp
      · exact ⟨_, hclean, rfl, rfl⟩

/-- Re-running the same upsert on the store it produced succeeds and leaves a
single certificate for the registration with the same values. -/
theorem updateOrCreate_again {db : DB} {k : Nat} {em : Option Nat} {c : Nat}
    {v : Option Int} {o : String} {db2 : DB}
    (hnd : (db.certificados.map (fun x => x.inscricao)).Nodup)
    (h : Certificado.updateOrCreate db k em c v o = Except.ok db2) :
    ∃ db3, Certificado.updateOrCreate db2 k em c v o = Except.ok db3 ∧
      db3.certificados.countP (fun x => decide (x.inscricao = k)) = 1 ∧
      ∃ cert, findCertificado db3 k = some cert ∧ cert.inscricao = k ∧
        cert.emitido_por = em ∧ cert.carga_horaria = c ∧
        cert.validade = v ∧ cert.observacoes = o := by
  obtain ⟨hcount, ⟨cert2, hfind2, hkey2, hem2, hc2, hv2, ho2⟩, ⟨s, hs, hsk, hsem⟩⟩ :=
    updateOrCreate_post hnd h
  obtain ⟨hu, hev, hin⟩ := updateOrCreate_fields h
  have hclean2 :
      Certificado.clean db2 (certificadoAtualizado cert2 em c v o) = Except.ok () := by
    rw [Certificado.clean_congr hu hin
      (show (certificadoAtualizado cert2 em c v o).inscricao = s.inscricao by
        show cert2.inscricao = s.inscricao
        rw [hkey2, hsk])
      (show (certificadoAtualizado cert2 em c v o).emitido_por = s.emitido_por from
        hsem.symm)]
    exact hs
  have hkey2b : (certificadoAtualizado cert2 em c v o).inscricao = k := by
    show cert2.inscricao = k
    exact hkey2
  refine
    ⟨{ db2 with
       certificados := db2.certificados.map
         (fun x => if x.inscricao = k then certificadoAtualizado cert2 em c v o else x) },
     ?_, ?_, ?_⟩
  · unfold Certificado.updateOrCreate
    rw [hfind2]
    simp only [hclean2]
  · show (db2.certificados.map _).countP _ = 1
    rw [countP_key_replace db2.certificados k _ hkey2b]
    exact hcount
  · refine ⟨certificadoAtualizado cert2 em c v o, ?_, hkey2b, rfl, rfl, rfl, rfl⟩
    show (db2.certificados.map _).find? _ = _
    rw [findCertificado_key_replace db2.certificados k _ hkey2b]
    unfold findCertificado at hfind2
    rw [hfind2]
    rfl

/-- C1: for every event with capacity C, after any sequence of registration
create and status-update operations the number of CONFIRMADA registrations
never exceeds C (first conjunct, over every handler of the system); and
`Inscricao.clean` rejects setting a registration CONFIRMADA with a capacity
error when the count of other confirmed registrations (the record's own prior
state excluded via its pk) already equals the capacity (second conjunct). -/
theorem claim_C1 :
    (∀ (db : DB) (ops : List Op), DBWF db → capacityInv (runOps db ops)) ∧
    (∀ (db : DB) (insc : Inscricao) (u : Usuario) (ev : Evento),
      findUsuario db insc.participante = some u →
      (u.perfil = Perfil.ALUNO ∨ u.perfil = Perfil.PROFESSOR) →
      findEvento db insc.evento = some ev →
      insc.status = InscricaoStatus.CONFIRMADA →
      confirmadasCount db insc.evento (some insc.pk) = ev.capacidade →
      Inscricao.clean db insc (some insc.pk) = Except.error ValErr.capacidadeMaxima) := by
  constructor
  · intro db ops hwf
    exact (runOps_DBWF ops db hwf).2.2.2.1
  · intro db insc u ev hu hperf hev hst hcount
    have hn : ¬ u.perfil = Perfil.ORGANIZADOR := by
      rcases hperf with h | h <;> simp [h]
    have hpc : participanteCheck db insc = Except.ok () := by
      unfold participanteCheck
      simp only [hu]
      rw [if_neg (not_not_intro hperf)]
      rw [if_neg hn]
    unfold Inscricao.clean
    simp only [hpc, hev]
    rw [if_pos ⟨hst, by omega⟩]

theorem claim_C1_witness :
    capacityInv (runOps dbCheio
      [Op.manage 9 1 3 InscricaoStatus.CONFIRMADA, Op.inscreverUsuario 3 1 none none]) ∧
    Inscricao.clean dbCheio ⟨2, 1, 3, InscricaoStatus.CONFIRMADA, false⟩ (some 2) =
      Except.error ValErr.capacidadeMaxima :=
  ⟨claim_C1.1 dbCheio _
      (by unfold DBWF eventosNodup pksNodup fkEventoInv capacityInv presencaInv; decide),
   claim_C1.2 dbCheio ⟨2, 1, 3, InscricaoStatus.CONFIRMADA, false⟩ ⟨3, Perfil.ALUNO⟩
      ⟨1, 1, 1, 10⟩ (by decide) (by decide) (by decide) rfl (by decide)⟩

/-- C2: for every registration, after every mutating operation the attendance
flag is true only when the status is CONFIRMADA (first conjunct, over every
handler of the system); and `Inscricao.clean` rejects any write that would
leave the flag true with a different status (second conjunct). -/
theorem claim_C2 :
    (∀ (db : DB) (ops : List Op), DBWF db → presencaInv (runOps db ops)) ∧
    (∀ (db : DB) (insc : Inscricao) (excl : Option Nat) (u : Usuario) (ev : Evento),
      findUsuario db insc.participante = some u →
      (u.perfil = Perfil.ALUNO ∨ u.perfil = Perfil.PROFESSOR) →
      findEvento db insc.evento = some ev →
      insc.presenca_confirmada = true →
      insc.status ≠ InscricaoStatus.CONFIRMADA →
      Inscricao.clean db insc excl = Except.error ValErr.presencaSemConfirmacao) := by
  constructor
  · intro db ops hwf
    exact (runOps_DBWF ops db hwf).2.2.2.2
  · intro db insc excl u ev hu hperf hev hpres hne
    have hn : ¬ u.perfil = Perfil.ORGANIZADOR := by
      rcases hperf with h | h <;> simp [h]
    have hpc : participanteCheck db insc = Except.ok () := by
      unfold participanteCheck
      simp only [hu]
      rw [if_neg (not_not_intro hperf)]
      rw [if_neg hn]
    unfold Inscricao.clean
    simp only [hpc, hev]
    rw [if_neg (by intro hc; exact hne hc.1)]
    rw [if_pos ⟨hpres, hne⟩]

theorem claim_C2_witness :
    presencaInv (runOps dbCheio
      [Op.marcarPresenca 9 1 [1], Op.manage 9 1 2 InscricaoStatus.CANCELADA]) ∧
    Inscricao.clean dbCheio ⟨2, 1, 3, InscricaoStatus.PENDENTE, true⟩ none =
      Except.error ValErr.presencaSemConfirmacao :=
  ⟨claim_C2.1 dbCheio _
      (by unfold DBWF eventosNodup pksNodup fkEventoInv capacityInv presencaInv; decide),
   claim_C2.2 dbCheio ⟨2, 1, 3, InscricaoStatus.PENDENTE, true⟩ none ⟨3, Perfil.ALUNO⟩
      ⟨1, 1, 1, 10⟩ (by decide) (by decide) (by decide) rfl (by decide)⟩

/-- C10: self-registration through the REST API always creates a registration
with status PENDENTE and attendance false, for every client-supplied status or
attendance value (both are read-only serializer fields and are quantified here
but never influence the result). -/
theorem claim_C10 :
    ∀ (db : DB) (a e : Nat) (rs : Option InscricaoStatus) (rp : Option Bool) (db2 : DB),
      inscricaoCreateSelfApi db a e rs rp = Except.ok db2 →
      ∃ novo : Inscricao, db2.inscricoes = db.inscricoes ++ [novo] ∧
        novo.status = InscricaoStatus.PENDENTE ∧ novo.presenca_confirmada = false := by
  intro db a e rs rp db2 h
  unfold inscricaoCreateSelfApi at h
  split at h
  · exact Except.noConfusion h
  · split at h
    · exact Except.noConfusion h
    · split at h
      · exact Except.noConfusion h
      · split at h
        · exact Except.noConfusion h
        · obtain ⟨_, hdb2⟩ := saveNew_ok h
          subst hdb2
          exact ⟨_, rfl, rfl, rfl⟩

theorem claim_C10_witness :
    ∃ novo : Inscricao,
      ({ dbVazio with
         inscricoes := [⟨1, 2, 2, InscricaoStatus.PENDENTE, false⟩] } : DB).inscricoes =
        dbVazio.inscricoes ++ [novo] ∧
      novo.status = InscricaoStatus.PENDENTE ∧ novo.presenca_confirmada = false :=
  claim_C10 dbVazio 2 2 (some InscricaoStatus.CONFIRMADA) (some true) _ rfl

/-- C8: a user whose perfil is ORGANIZADOR can never become the participant of
a registration: model validation (`full_clean`, hence every `save`) rejects it,
the admin/organizer management view rejects it whoever the acting user is, and
an organizer acting through the self-registration API is already rejected at
the permission layer; in every case the request fails and no record is
written. -/
theorem claim_C8 :
    (∀ (db : DB) (insc : Inscricao) (excl : Option Nat) (u : Usuario),
      findUsuario db insc.participante = some u → u.perfil = Perfil.ORGANIZADOR →
      Inscricao.full_clean db insc excl = Except.error ValErr.participanteNaoElegivel) ∧
    (∀ (db : DB) (ev p : Nat) (st : InscricaoStatus) (pres : Bool) (u : Usuario),
      findUsuario db p = some u → u.perfil = Perfil.ORGANIZADOR →
      Inscricao.saveNew db ev p st pres = Except.error ValErr.participanteNaoElegivel) ∧
    (∀ (db : DB) (a e p : Nat) (st : InscricaoStatus) (actor : Usuario) (evento : Evento)
        (u : Usuario),
      findEvento db e = some evento → findUsuario db a = some actor →
      (actor.perfil = Perfil.ADMIN ∨
        (actor.perfil = Perfil.ORGANIZADOR ∧ evento.organizador = actor.id)) →
      findUsuario db p = some u → u.perfil = Perfil.ORGANIZADOR →
      manageInscricao db a e p st = Except.error ValErr.participanteNaoElegivel) ∧
    (∀ (db : DB) (a e : Nat) (rs : Option InscricaoStatus) (rp : Option Bool)
        (actor : Usuario),
      findUsuario db a = some actor → actor.perfil = Perfil.ORGANIZADOR →
      inscricaoCreateSelfApi db a e rs rp = Except.error ValErr.semPermissao) := by
  have hfull : ∀ (db : DB) (insc : Inscricao) (excl : Option Nat) (u : Usuario),
      findUsuario db insc.participante = some u → u.perfil = Perfil.ORGANIZADOR →
      Inscricao.full_clean db insc excl = Except.error ValErr.participanteNaoElegivel := by
    intro db insc excl u hu horg
    have hpc : participanteCheck db insc = Except.error ValErr.participanteNaoElegivel := by
      unfold participanteCheck
      simp only [hu]
      rw [if_pos (by rw [horg]; decide)]
    have hclean : Inscricao.clean db insc excl =
        Except.error ValErr.participanteNaoElegivel := by
      unfold Inscricao.clean
      simp only [hpc]
    unfold Inscricao.full_clean
    simp only [hclean]
  refine ⟨hfull, ?_, ?_, ?_⟩
  · intro db ev p st pres u hu horg
    unfold Inscricao.saveNew
    have := hfull db (Inscricao.registroNovo db ev p st pres) none u hu horg
    simp only [this]
  · intro db a e p st actor evento u hevf hactor hperm hp horg
    unfold manageInscricao
    simp only [hevf, hactor]
    rw [if_neg (by
      rintro ⟨ho, hne⟩
      rcases hperm with hh | ⟨h1, h2⟩
      · rw [hh] at ho
        exact Perfil.noConfusion ho
      · exact hne h2)]
    rw [if_neg (not_not_intro (by
      rcases hperm with hh | ⟨h1, _⟩
      · exact Or.inl hh
      · exact Or.inr h1))]
    simp only [hp]
    rw [if_pos (by rw [horg]; decide)]
  · intro db a e rs rp actor hactor horg
    unfold inscricaoCreateSelfApi
    simp only [hactor]
    rw [if_pos (by rw [horg]; decide)]

theorem claim_C8_witness :
    Inscricao.full_clean dbCheio ⟨5, 1, 1, InscricaoStatus.PENDENTE, false⟩ none =
      Except.error ValErr.participanteNaoElegivel ∧
    Inscricao.saveNew dbCheio 1 1 InscricaoStatus.PENDENTE false =
      Except.error ValErr.participanteNaoElegivel ∧
    manageInscricao dbCheio 9 1 1 InscricaoStatus.PENDENTE =
      Except.error ValErr.participanteNaoElegivel ∧
    inscricaoCreateSelfApi dbCheio 1 1 none none =
      Except.error ValErr.semPermissao :=
  ⟨claim_C8.1 dbCheio ⟨5, 1, 1, InscricaoStatus.PENDENTE, false⟩ none
      ⟨1, Perfil.ORGANIZADOR⟩ (by decide) rfl,
   claim_C8.2.1 dbCheio 1 1 InscricaoStatus.PENDENTE false ⟨1, Perfil.ORGANIZADOR⟩
      (by decide) rfl,
   claim_C8.2.2.1 dbCheio 9 1 1 InscricaoStatus.PENDENTE ⟨9, Perfil.ADMIN⟩ ⟨1, 1, 1, 10⟩
      ⟨1, Perfil.ORGANIZADOR⟩ (by decide) (by decide) (Or.inl rfl) (by decide) rfl,
   claim_C8.2.2.2 dbCheio 1 1 none none ⟨1, Perfil.ORGANIZADOR⟩ (by decide) rfl⟩

/-- C6 (code bug): the certificate record the auto-issue batch builds — with
no issuer, as `emitir_certificados.py` does — can never be saved: the model
validation of `Certificado` rejects the missing non-nullable issuer even for a
fully eligible registration, so the batch can never create the system-issued
certificate the spec describes (independently of the `evento.carga_horaria`
attribute error, which is not even expressible because `Evento` has no such
field). -/
theorem claim_C6 :
    ∀ (db : DB) (iid carga codigo : Nat) (insc : Inscricao),
      findInscricao db iid = some insc →
      insc.status = InscricaoStatus.CONFIRMADA →
      insc.presenca_confirmada = true →
      Certificado.saveNew db (certificadoSistema iid carga codigo) =
        Except.error ValErr.certEmissorObrigatorio := by
  intro db iid carga codigo insc hins hst hpres
  have hclean : Certificado.clean db (certificadoSistema iid carga codigo) =
      Except.error ValErr.certEmissorObrigatorio := by
    unfold Certificado.clean certificadoSistema
    dsimp only
    simp only [hins]
    rw [if_neg (by rw [hst]; decide)]
    rw [if_neg (by rw [hpres]; decide)]
  unfold Certificado.saveNew
  simp only [hclean]

theorem claim_C6_witness :
    Certificado.saveNew dbElegivel (certificadoSistema 1 4 7) =
      Except.error ValErr.certEmissorObrigatorio :=
  claim_C6 dbElegivel 1 4 7 ⟨1, 1, 2, InscricaoStatus.CONFIRMADA, true⟩ (by decide) rfl rfl

/-- C9: certificates never outlive their registration — referential integrity
of `Certificado.inscricao` is preserved by every operation, including the
cascading hard delete of a registration and of an event; after a hard delete
no certificate references the deleted registration; and the two soft-cancel
paths (status := CANCELADA) leave the certificates table untouched. -/
theorem claim_C9 :
    (∀ (db : DB) (ops : List Op), certIntegrity db → certIntegrity (runOps db ops)) ∧
    (∀ (db : DB) (a pk : Nat) (db2 : DB), inscricaoHardDelete db a pk = Except.ok db2 →
      ∀ c ∈ db2.certificados, c.inscricao ≠ pk) ∧
    (∀ (db : DB) (a e : Nat) (db2 : DB), detalhesEventoCancel db a e = Except.ok db2 →
      db2.certificados = db.certificados) ∧
    (∀ (db : DB) (a pk : Nat) (db2 : DB), inscricaoCancelApi db a pk = Except.ok db2 →
      db2.certificados = db.certificados) := by
  refine ⟨?_, ?_, ?_, ?_⟩
  · intro db ops hci
    exact runOps_certIntegrity ops db hci
  · intro db a pk db2 h
    unfold inscricaoHardDelete at h
    split at h
    · exact Except.noConfusion h
    · split at h
      · exact Except.noConfusion h
      · split at h
        · exact Except.noConfusion h
        · injection h with h
          subst h
          intro c hc
          have := (List.mem_filter.mp hc).2
          simpa using this
  · intro db a e db2 h
    obtain ⟨x, hx⟩ := detalhesEventoCancel_ok_save h
    obtain ⟨_, hdb2⟩ := saveUpdate_ok hx
    subst hdb2
    rfl
  · intro db a pk db2 h
    obtain ⟨x, hx⟩ := inscricaoCancelApi_ok_save h
    obtain ⟨_, hdb2⟩ := saveUpdate_ok hx
    subst hdb2
    rfl

theorem claim_C9_witness :
    certIntegrity (runOps dbElegivel
      [Op.emitirCertificado 9 (some 1) (some 9) (some 4) none "",
       Op.deletarInscricao 9 1, Op.deletarEvento 9 1]) ∧
    (∀ c ∈ ({ dbCheio with inscricoes := [], certificados := [] } : DB).certificados,
      c.inscricao ≠ 1) ∧
    ({ dbCheio with
       inscricoes := [⟨1, 1, 2, InscricaoStatus.CANCELADA, false⟩] } : DB).certificados =
      dbCheio.certificados :=
  ⟨claim_C9.1 dbElegivel _ (by unfold certIntegrity; decide),
   claim_C9.2.1 dbCheio 9 1 _ rfl,
   claim_C9.2.2.1 dbCheio 2 1 _ rfl⟩

theorem findUsuario_mem {db : DB} {k : Nat} {u : Usuario}
    (h : findUsuario db k = some u) : u ∈ db.usuarios ∧ u.id = k := by
  unfold findUsuario at h
  refine ⟨List.mem_of_find?_eq_some h, ?_⟩
  have := List.find?_some h
  simpa using this

theorem participanteCheck_ok {db : DB} {self : Inscricao} {u : Usuario}
    (hu : findUsuario db self.participante = some u)
    (hperf : u.perfil = Perfil.ALUNO ∨ u.perfil = Perfil.PROFESSOR) :
    participanteCheck db self = Except.ok () := by
  unfold participanteCheck
  simp only [hu]
  rw [if_neg (not_not_intro hperf)]
  rw [if_neg (by rcases hperf with h | h <;> simp [h])]

/-- C4 counterexample: in the store `dbCancelada` the registration of student
2 on event 2 is CANCELADA, yet the admin's status update to PENDENTE is not
rejected — it succeeds and the registration leaves the Cancelled state. -/
theorem claim_C4_counterexample :
    manageInscricao dbCancelada 9 2 2 InscricaoStatus.PENDENTE =
      Except.ok
        { dbCancelada with
          inscricoes := [⟨1, 2, 2, InscricaoStatus.PENDENTE, false⟩] } := rfl

/-- C4 as amended: the code has no transition table and CANCELADA is not
terminal — an admin's status update on a cancelled registration (to PENDENTE
here) passes every check and overwrites the record, there being no
InvalidTransition error anywhere in the code. -/
theorem claim_C4_amended :
    ∀ (db : DB) (a e p : Nat) (actor : Usuario) (evento : Evento) (participante : Usuario)
      (insc : Inscricao),
      findEvento db e = some evento →
      findUsuario db a = some actor →
      actor.perfil = Perfil.ADMIN →
      findUsuario db p = some participante →
      (participante.perfil = Perfil.ALUNO ∨ participante.perfil = Perfil.PROFESSOR) →
      findInscricaoPair db e p = some insc →
      insc.status = InscricaoStatus.CANCELADA →
      insc.presenca_confirmada = false →
      (∀ j ∈ db.inscricoes, j.evento = insc.evento ∧ j.participante = insc.participante →
        j.pk = insc.pk) →
      manageInscricao db a e p InscricaoStatus.PENDENTE =
        Except.ok
          { db with
            inscricoes := db.inscricoes.map
              (fun i => if i.pk = insc.pk then
                { insc with status := InscricaoStatus.PENDENTE } else i) } := by
  intro db a e p actor evento participante insc hevf hactor hadm hpartf hperf hpairf
    hcanc hpres huniq
  obtain ⟨hmem, hie, hip⟩ := findInscricaoPair_mem hpairf
  have hrec : statusUpdateRecord insc InscricaoStatus.PENDENTE =
      { insc with status := InscricaoStatus.PENDENTE } := by
    unfold statusUpdateRecord
    rw [if_neg (by
      rintro ⟨hp, _⟩
      rw [hpres] at hp
      exact Bool.noConfusion hp)]
  have hpc : participanteCheck db { insc with status := InscricaoStatus.PENDENTE } =
      Except.ok () := by
    refine participanteCheck_ok ?_ hperf
    show findUsuario db insc.participante = some participante
    rw [hip]
    exact hpartf
  have hclean : Inscricao.clean db { insc with status := InscricaoStatus.PENDENTE }
      (some ({ insc with status := InscricaoStatus.PENDENTE } : Inscricao).pk) =
      Except.ok () := by
    unfold Inscricao.clean
    simp only [hpc]
    have hev2 : findEvento db ({ insc with status := InscricaoStatus.PENDENTE } :
        Inscricao).evento = some evento := by
      show findEvento db insc.evento = some evento
      rw [hie]
      exact hevf
    simp only [hev2]
    rw [if_neg (by rintro ⟨hs, _⟩; exact InscricaoStatus.noConfusion hs)]
    rw [if_neg (by
      rintro ⟨hp, _⟩
      have hp2 : insc.presenca_confirmada = true := hp
      rw [hpres] at hp2
      exact Bool.noConfusion hp2)]
  have hfc : Inscricao.full_clean db { insc with status := InscricaoStatus.PENDENTE }
      (some ({ insc with status := InscricaoStatus.PENDENTE } : Inscricao).pk) =
      Except.ok () := by
    unfold Inscricao.full_clean
    simp only [hclean]
    unfold Inscricao.validate_unique
    rw [if_neg (by
      intro hany
      rcases List.any_eq_true.mp hany with ⟨j, hj, hdec⟩
      simp only [decide_eq_true_eq] at hdec
      obtain ⟨hje, hjp, hjpk⟩ := hdec
      have hjeq : j.pk = insc.pk := huniq j hj ⟨hje, hjp⟩
      exact hjpk (by rw [hjeq]))]
  unfold manageInscricao
  simp only [hevf, hactor]
  rw [if_neg (by
    rintro ⟨ho, _⟩
    rw [hadm] at ho
    exact Perfil.noConfusion ho)]
  rw [if_neg (not_not_intro (Or.inl hadm))]
  simp only [hpartf]
  rw [if_neg (not_not_intro hperf)]
  rw [if_neg (by rcases hperf with hh | hh <;> simp [hh])]
  simp only [hpairf]
  rw [hrec]
  unfold Inscricao.saveUpdate
  simp only [hfc]

theorem claim_C4_witness :
    manageInscricao dbCancelada 9 2 2 InscricaoStatus.PENDENTE =
      Except.ok
        { dbCancelada with
          inscricoes := dbCancelada.inscricoes.map
            (fun i => if i.pk = (⟨1, 2, 2, InscricaoStatus.CANCELADA, false⟩ : Inscricao).pk
              then { (⟨1, 2, 2, InscricaoStatus.CANCELADA, false⟩ : Inscricao) with
                      status := InscricaoStatus.PENDENTE }
              else i) } :=
  claim_C4_amended dbCancelada 9 2 2 ⟨9, Perfil.ADMIN⟩ ⟨2, 3, 1, 10⟩ ⟨2, Perfil.ALUNO⟩
    ⟨1, 2, 2, InscricaoStatus.CANCELADA, false⟩ (by decide) (by decide) rfl (by decide)
    (by decide) (by decide) rfl rfl (by decide)

/-- C5 counterexample: in the full store `dbCheio` (capacity 1, one confirmed
registration), student 3 self-registers — the requested status is forced to
PENDENTE, the role is eligible, there is no existing registration and the
actor registers themselves — yet the request is rejected with the no-slots
error, contradicting the claim that a PENDENte registration succeeds
regardless of the confirmed count. -/
theorem claim_C5_counterexample :
    inscricaoUsuarioPost dbCheio 3 1 none none = Except.error ValErr.semVagas := rfl

/-- C5 as amended: the capacity precondition is not limited to requested
status CONFIRMADA.  When an admin registers a participant, a PENDENTE
registration is indeed created regardless of the confirmed count (first
conjunct, with no capacity hypothesis); but when the acting user is a
student/professor self-registering through `InscricaoUsuarioView`, lines
763-766 additionally reject the request — even though the status is forced to
PENDENTE — whenever the event has no available slots (second conjunct). -/
theorem claim_C5_amended :
    (∀ (db : DB) (a e p : Nat) (actor : Usuario) (evento : Evento) (participante : Usuario),
      findEvento db e = some evento →
      findUsuario db a = some actor →
      actor.perfil = Perfil.ADMIN →
      findUsuario db p = some participante →
      (participante.perfil = Perfil.ALUNO ∨ participante.perfil = Perfil.PROFESSOR) →
      findInscricaoPair db e p = none →
      manageInscricao db a e p InscricaoStatus.PENDENTE =
        Except.ok
          { db with
            inscricoes := db.inscricoes ++
              [Inscricao.registroNovo db e p InscricaoStatus.PENDENTE false] }) ∧
    (∀ (db : DB) (a e : Nat) (pr : Option Nat) (sr : Option InscricaoStatus)
        (actor : Usuario) (evento : Evento),
      findUsuario db a = some actor →
      (actor.perfil = Perfil.ALUNO ∨ actor.perfil = Perfil.PROFESSOR) →
      findEvento db e = some evento →
      findInscricaoPair db e actor.id = none →
      vagas_disponiveis db evento = 0 →
      inscricaoUsuarioPost db a e pr sr = Except.error ValErr.semVagas) := by
  constructor
  · intro db a e p actor evento participante hevf hactor hadm hpartf hperf hpairf
    have hpc : participanteCheck db
        (Inscricao.registroNovo db e p InscricaoStatus.PENDENTE false) = Except.ok () := by
      refine participanteCheck_ok ?_ hperf
      show findUsuario db p = some participante
      exact hpartf
    have hclean : Inscricao.clean db
        (Inscricao.registroNovo db e p InscricaoStatus.PENDENTE false) none =
        Except.ok () := by
      unfold Inscricao.clean
      simp only [hpc]
      have hev2 : findEvento db
          (Inscricao.registroNovo db e p InscricaoStatus.PENDENTE false).evento =
          some evento := by
        show findEvento db e = some evento
        exact hevf
      simp only [hev2]
      rw [if_neg (by rintro ⟨hs, _⟩; exact InscricaoStatus.noConfusion hs)]
      rw [if_neg (by rintro ⟨hp, _⟩; exact Bool.noConfusion hp)]
    have hnone := hpairf
    unfold findInscricaoPair at hnone
    have hfc : Inscricao.full_clean db
        (Inscricao.registroNovo db e p InscricaoStatus.PENDENTE false) none =
        Except.ok () := by
      unfold Inscricao.full_clean
      simp only [hclean]
      unfold Inscricao.validate_unique
      rw [if_neg (by
        intro hany
        rcases List.any_eq_true.mp hany with ⟨j, hj, hdec⟩
        simp only [decide_eq_true_eq] at hdec
        have hno := List.find?_eq_none.mp hnone j hj
        simp only [decide_eq_true_eq] at hno
        exact hno ⟨hdec.1, hdec.2.1⟩)]
    unfold manageInscricao
    simp only [hevf, hactor]
    rw [if_neg (by
      rintro ⟨ho, _⟩
      rw [hadm] at ho
      exact Perfil.noConfusion ho)]
    rw [if_neg (not_not_intro (Or.inl hadm))]
    simp only [hpartf]
    rw [if_neg (not_not_intro hperf)]
    rw [if_neg (by rcases hperf with hh | hh <;> simp [hh])]
    simp only [hpairf]
    rw [if_neg (by rintro ⟨hs, _⟩; exact InscricaoStatus.noConfusion hs)]
    unfold Inscricao.saveNew
    simp only [hfc]
  · intro db a e pr sr actor evento hactor hperf hevf hpairf hvag
    unfold inscricaoUsuarioPost
    simp only [hactor]
    have hesc : escolhaParticipante actor pr sr =
        Except.ok (actor.id, InscricaoStatus.PENDENTE) := by
      unfold escolhaParticipante
      rw [if_pos hperf]
    simp only [hesc]
    have hactor2 : findUsuario db actor.id = some actor := by
      rw [(findUsuario_mem hactor).2]
      exact hactor
    simp only [hactor2]
    rw [if_neg (not_not_intro hperf)]
    rw [if_neg (by rcases hperf with hh | hh <;> simp [hh])]
    simp only [hevf]
    rw [if_neg (by
      rintro ⟨ho, _⟩
      rcases hperf with hh | hh <;> (rw [hh] at ho; exact Perfil.noConfusion ho))]
    simp only [hpairf]
    rw [if_neg (by rintro ⟨hs, _⟩; exact InscricaoStatus.noConfusion hs)]
    rw [if_pos ⟨hperf, hvag⟩]

theorem claim_C5_witness :
    manageInscricao dbCheio 9 1 3 InscricaoStatus.PENDENTE =
      Except.ok
        { dbCheio with
          inscricoes := dbCheio.inscricoes ++
            [Inscricao.registroNovo dbCheio 1 3 InscricaoStatus.PENDENTE false] } ∧
    inscricaoUsuarioPost dbCheio 4 1 none none = Except.error ValErr.semVagas :=
  ⟨claim_C5_amended.1 dbCheio 9 1 3 ⟨9, Perfil.ADMIN⟩ ⟨1, 1, 1, 10⟩ ⟨3, Perfil.ALUNO⟩
      (by decide) (by decide) rfl (by decide) (by decide) (by decide),
   claim_C5_amended.2 dbCheio 4 1 none none ⟨4, Perfil.PROFESSOR⟩ ⟨1, 1, 1, 10⟩
      (by decide) (by decide) (by decide) (by decide) (by decide)⟩

theorem emissaoChecks_iid_some {db : DB} {a : Nat} {iid eid : Option Nat}
    {c v : Option Int} {t : Nat × Nat × Nat}
    (h : emissaoChecks db a iid eid c v = Except.ok t) : iid = some t.1 := by
  unfold emissaoChecks at h
  repeat' split at h
  all_goals first
    | exact Except.noConfusion h
    | (injection h with h
       subst h
       rfl)

/-- C3: the certificate-issuing view writes a certificate only when, at that
moment, the referenced registration is CONFIRMADA with attendance confirmed
(first conjunct: any successful call implies the eligibility of the
registration it named); and when that eligibility gate fails while every
earlier check passes, the call is rejected with the not-eligible error — and,
being an `Except.error`, writes nothing (second conjunct). -/
theorem claim_C3 :
    (∀ (db : DB) (a : Nat) (iid eid : Option Nat) (c v : Option Int) (o : String)
        (db2 : DB),
      emissaoCertificadoPost db a iid eid c v o = Except.ok db2 →
      ∃ pk insc, iid = some pk ∧ findInscricao db pk = some insc ∧
        insc.status = InscricaoStatus.CONFIRMADA ∧ insc.presenca_confirmada = true) ∧
    (∀ (db : DB) (a pk eid : Nat) (c : Int) (v : Option Int) (o : String)
        (actor : Usuario) (insc : Inscricao),
      findUsuario db a = some actor →
      (actor.perfil = Perfil.ADMIN ∨ actor.perfil = Perfil.ORGANIZADOR) →
      0 < c →
      findInscricao db pk = some insc →
      validadeInvalida db insc v = false →
      ¬(actor.perfil = Perfil.ORGANIZADOR ∧
        eventoDoOrganizador db insc.evento actor.id = false) →
      ¬(insc.status = InscricaoStatus.CONFIRMADA ∧ insc.presenca_confirmada = true) →
      emissaoCertificadoPost db a (some pk) (some eid) (some c) v o =
        Except.error ValErr.naoElegivel) := by
  constructor
  · intro db a iid eid c v o db2 h
    unfold emissaoCertificadoPost at h
    split at h
    · exact Except.noConfusion h
    · rename_i iid0 eid0 c0 hchecks
      obtain ⟨insc, hins, hst, hpres⟩ := emissaoChecks_ok_elegivel hchecks
      exact ⟨iid0, insc, emissaoChecks_iid_some hchecks, hins, hst, hpres⟩
  · intro db a pk eid c v o actor insc hactor hperm hcpos hins hval hown helig
    have hchecks : emissaoChecks db a (some pk) (some eid) (some c) v =
        Except.error ValErr.naoElegivel := by
      unfold emissaoChecks
      simp only [hactor]
      rw [if_neg (not_not_intro hperm)]
      rw [if_neg (by omega)]
      simp only [hins]
      rw [if_neg (by simp [hval])]
      rw [if_neg hown]
      rw [if_pos helig]
    unfold emissaoCertificadoPost
    simp only [hchecks]

theorem claim_C3_witness :
    (∃ pk insc, (some 1 : Option Nat) = some pk ∧ findInscricao dbElegivel pk = some insc ∧
      insc.status = InscricaoStatus.CONFIRMADA ∧ insc.presenca_confirmada = true) ∧
    emissaoCertificadoPost dbCheio 9 (some 1) (some 1) (some 4) none "" =
      Except.error ValErr.naoElegivel :=
  ⟨claim_C3.1 dbElegivel 9 (some 1) (some 9) (some 4) none ""
      { dbElegivel with certificados := [⟨1, some 9, 1, 4, none, ""⟩] } rfl,
   claim_C3.2 dbCheio 9 1 1 4 none "" ⟨9, Perfil.ADMIN⟩
      ⟨1, 1, 2, InscricaoStatus.CONFIRMADA, false⟩ (by decide) (by decide) (by decide)
      (by decide) (by decide) (by decide) (by decide)⟩

/-- C7: issuing a certificate is an idempotent upsert keyed by the
registration — after a successful call there is exactly one certificate
record for the registration, a second identical call also succeeds, still
leaves exactly one record, and that record carries the second call's issuer,
hours, validity date and notes (the second call overwrites rather than
duplicating). -/
theorem claim_C7 :
    ∀ (db : DB) (a iid eid : Nat) (c : Int) (v : Option Int) (o : String) (db2 : DB),
      (db.certificados.map (fun x => x.inscricao)).Nodup →
      emissaoCertificadoPost db a (some iid) (some eid) (some c) v o = Except.ok db2 →
      (db2.certificados.filter (fun x => decide (x.inscricao = iid))).length = 1 ∧
      ∃ db3, emissaoCertificadoPost db2 a (some iid) (some eid) (some c) v o =
          Except.ok db3 ∧
        (db3.certificados.filter (fun x => decide (x.inscricao = iid))).length = 1 ∧
        ∃ cert, findCertificado db3 iid = some cert ∧
          cert.emitido_por = some eid ∧ cert.carga_horaria = c.toNat ∧
          cert.validade = v ∧ cert.observacoes = o := by
  intro db a iid eid c v o db2 hnd h
  unfold emissaoCertificadoPost at h
  split at h
  · exact Except.noConfusion h
  · rename_i iid0 eid0 c0 hchecks
    have ht := emissaoChecks_some_ok hchecks
    injection ht with ht1 ht2
    injection ht2 with ht2 ht3
    subst ht1
    subst ht2
    subst ht3
    obtain ⟨hu, hev, hin⟩ := updateOrCreate_fields h
    obtain ⟨hcount1, _, _⟩ := updateOrCreate_post hnd h
    obtain ⟨db3, hup3, hcount3, cert, hfind3, hkey, hcem, hcc, hcv, hco⟩ :=
      updateOrCreate_again hnd h
    refine ⟨?_, db3, ?_, ?_, cert, hfind3, hcem, hcc, hcv, hco⟩
    · rw [← List.countP_eq_length_filter]
      exact hcount1
    · unfold emissaoCertificadoPost
      rw [emissaoChecks_congr hu hev hin]
      simp only [hchecks]
      exact hup3
    · rw [← List.countP_eq_length_filter]
      exact hcount3

theorem claim_C7_witness :
    (({ dbElegivel with
        certificados := [⟨1, some 9, 1, 4, none, ""⟩] } : DB).certificados.filter
      (fun x => decide (x.inscricao = 1))).length = 1 ∧
    ∃ db3,
      emissaoCertificadoPost
          { dbElegivel with certificados := [⟨1, some 9, 1, 4, none, ""⟩] }
          9 (some 1) (some 9) (some 4) none "" = Except.ok db3 ∧
      (db3.certificados.filter (fun x => decide (x.inscricao = 1))).length = 1 ∧
      ∃ cert, findCertificado db3 1 = some cert ∧
        cert.emitido_por = some 9 ∧ cert.carga_horaria = (4 : Int).toNat ∧
        cert.validade = none ∧ cert.observacoes = "" :=
  claim_C7 dbElegivel 9 1 9 4 none ""
    { dbElegivel with certificados := [⟨1, some 9, 1, 4, none, ""⟩] }
    (by decide) rfl
